import Mathlib

/-!
Verification of the Game-of-Life engine (threads-and-barrier TP project).

The development shallowly embeds the Python modules:
  - gamelife_core.py : grids, Conway update, barrier completion action;
  - history_manager.py : bounded generation history, undo/redo navigation,
    file persistence.

Grids are lists of rows of cell values (0 = dead, 1 = alive), of physical
shape (n+2) x (n+2): the logical n x n cells live at indices 1..n and the
outer ring is a dead border.  Python dictionaries keyed by generation are
embedded as association lists in insertion order (a Python dict preserves
insertion order; assigning to an existing key overwrites in place).
-/

namespace GameLife

/-- A grid: list of rows of cell values. -/
abbrev Grid := List (List Nat)

/-- Reading cell (i, j); all accesses the program performs are in range,
so the out-of-range default 0 is never exercised by the theorems below. -/
def getCell (g : Grid) (i j : Nat) : Nat :=
  (g.getD i []).getD j 0

/-- From gamelife_core.make_grid: a (size+2) x (size+2) grid of zeros. -/
def make_grid (size : Nat) : Grid :=
  List.replicate (size + 2) (List.replicate (size + 2) 0)

/-- Helper: the (n+2) x (n+2) grid whose cell (i, j) holds f i j. -/
def gridOfFn (n : Nat) (f : Nat → Nat → Nat) : Grid :=
  (List.range (n + 2)).map fun i => (List.range (n + 2)).map fun j => f i j

/-- From gamelife_core.has_living_cells: scans interior cells 1..n for a
live one. -/
def has_living_cells (n : Nat) (T : Grid) : Bool :=
  (List.range' 1 n).any fun i => (List.range' 1 n).any fun j => getCell T i j == 1

/-- From cell_thread (gamelife_core.py): the sum of the 8 neighbour cells
of (i, j) read from the current grid. -/
def neighbors (T : Grid) (i j : Nat) : Nat :=
  getCell T (i-1) (j-1) + getCell T (i-1) j + getCell T (i-1) (j+1) +
  getCell T i (j-1) + getCell T i (j+1) +
  getCell T (i+1) (j-1) + getCell T (i+1) j + getCell T (i+1) (j+1)

/-- From cell_thread: the value one cell thread writes into Tnext[i][j]. -/
def cellNext (T : Grid) (i j : Nat) : Nat :=
  if getCell T i j = 1 then
    if neighbors T i j = 2 ∨ neighbors T i j = 3 then 1 else 0
  else
    if neighbors T i j = 3 then 1 else 0

/-- One computation round: every interior cell (1..n on both axes) of the
next buffer is written by its cell thread; every other entry of the next
buffer keeps its previous content.  Both program buffers always have the
physical shape (n+2) x (n+2), which gridOfFn reproduces. -/
def computeRound (n : Nat) (T Tnext : Grid) : Grid :=
  gridOfFn n fun i j =>
    if 1 ≤ i ∧ i ≤ n ∧ 1 ≤ j ∧ j ≤ n then cellNext T i j else getCell Tnext i j

/-- The Conway update exactly as the specification words it: 1 if the cell
is alive with exactly 2 or 3 live neighbours, 1 if the cell is dead with
exactly 3 live neighbours, 0 otherwise. -/
def conwaySpecUpdate (T : Grid) (i j : Nat) : Nat :=
  if (getCell T i j = 1 ∧ (neighbors T i j = 2 ∨ neighbors T i j = 3)) ∨
      (getCell T i j = 0 ∧ neighbors T i j = 3) then 1 else 0

/-- A vertical 3-cell blinker centred at (r, c): live cells at rows
r-1, r, r+1 of column c. -/
def blinkerV (r c : Nat) : Nat → Nat → Nat := fun i j =>
  if (i = r - 1 ∨ i = r ∨ i = r + 1) ∧ j = c then 1 else 0

/-- A horizontal 3-cell blinker centred at (r, c): live cells at columns
c-1, c, c+1 of row r. -/
def blinkerH (r c : Nat) : Nat → Nat → Nat := fun i j =>
  if i = r ∧ (j = c - 1 ∨ j = c ∨ j = c + 1) then 1 else 0


/-- History entries standing for history_manager.generation_history, a
Python dict from generation number to grid kept in insertion order. -/
abbrev History := List (Nat × Grid)

/-- From history_manager: MAX_HISTORY_GENERATIONS = 100. -/
def MAX_HISTORY_GENERATIONS : Nat := 100

/-- The mutable module state the embedded operations touch: the two grid
buffers, the generation counter (gamelife_core), the history dictionary
(history_manager), and the redraw / running / single-step flags. -/
structure EngineState where
  T : Grid
  Tnext : Grid
  gen_counter : Nat
  history : History
  redraw : Bool
  running : Bool
  step_flag : Bool
  deriving DecidableEq

/-- Python dict assignment d[k] = v on an insertion-ordered dict:
overwrites in place when the key is present, appends otherwise. -/
def hInsert : History → Nat → Grid → History
  | [], k, v => [(k, v)]
  | (k2, v2) :: t, k, v => if k2 = k then (k, v) :: t else (k2, v2) :: hInsert t k v

/-- The keys of the history dict, in insertion order (Python d.keys()). -/
def keyList (h : History) : List Nat := h.map Prod.fst

/-- Python min() over a list of keys; the program only calls it on a
nonempty list, the value on [] is an unused default. -/
def pyMin : List Nat → Nat
  | [] => 0
  | x :: xs => xs.foldl min x

/-- Python max() over a list of keys, same convention as pyMin. -/
def pyMax : List Nat → Nat
  | [] => 0
  | x :: xs => xs.foldl max x

/-- Python del d[k]: removes the (unique) entry with key k. -/
def hErase (h : History) (k : Nat) : History :=
  h.eraseP fun p => p.1 == k

/-- Python dict lookup d[k]; the program only looks up keys that are
present, the default [] is never exercised by the theorems below. -/
def hFind (h : History) (k : Nat) : Grid :=
  ((h.find? fun p => p.1 == k).map Prod.snd).getD []

/-- Python sorted(d.keys()) — ascending order. -/
def sortKeys (h : History) : List Nat :=
  (keyList h).mergeSort

/-- From history_manager.save_state_to_history: no-op when the grid is
empty; otherwise stores a deep copy of the live grid keyed by the current
generation, then evicts the smallest key if the bound is exceeded. -/
def save_state_to_history (s : EngineState) : EngineState :=
  if s.T = [] then s
  else
    let h1 := hInsert s.history s.gen_counter s.T
    if MAX_HISTORY_GENERATIONS < h1.length then
      { s with history := hErase h1 (pyMin (keyList h1)) }
    else
      { s with history := h1 }

/-- The nested copy loop of load_state_from_history and
load_history_from_file: writes state[i][j] over the live grid at every
position covered by both grids; positions of T beyond state keep their
value. -/
def copyInto (T state : Grid) : Grid :=
  List.mapIdx (fun i row => List.mapIdx (fun j v =>
    if i < state.length ∧ j < (state.getD i []).length then getCell state i j else v) row) T

/-- load_state_from_history's copy loop has no bounds check, so it raises
IndexError as soon as it reaches a position of state that T lacks;
stateFits is the absence of that error. -/
def stateFits (state T : Grid) : Prop :=
  state.length ≤ T.length ∧
    ∀ i : Nat, i < state.length → (state.getD i []).length ≤ (T.getD i []).length

instance (state T : Grid) : Decidable (stateFits state T) := by
  unfold stateFits
  infer_instance

/-- The copy performed by load_state_from_history: some T2 on success,
none when the Python loop raises IndexError (stored grid larger than the
live grid).  The in-place writes a raising loop performs before the raise
are not modelled; no theorem below depends on that execution. -/
def copyStrict (T state : Grid) : Option Grid :=
  if stateFits state T then some (copyInto T state) else none

/-- The tail of load_state_from_history once a target generation is
found: copy the stored cells back into the live grid, set the counter to
the target, request a redraw and return True. -/
def restore_state (s : EngineState) (target_gen : Nat) : Option (Bool × EngineState) :=
  match copyStrict s.T (hFind s.history target_gen) with
  | some T2 =>
      some (true, { s with T := T2, gen_counter := target_gen, redraw := true })
  | none => none

/-- From history_manager.load_state_from_history: returns False on an
empty history; undo targets the last stored generation below the counter
in sorted order, redo the first stored generation above it; any other
direction returns False; none models a propagated IndexError. -/
def load_state_from_history (s : EngineState) (direction : String) :
    Option (Bool × EngineState) :=
  if s.history = [] then some (false, s)
  else
    let available_gens := sortKeys s.history
    if direction = "undo" then
      match (available_gens.filter fun g => g < s.gen_counter).getLast? with
      | some target_gen => restore_state s target_gen
      | none => some (false, s)
    else if direction = "redo" then
      match (available_gens.filter fun g => s.gen_counter < g).head? with
      | some target_gen => restore_state s target_gen
      | none => some (false, s)
    else
      some (false, s)

/-- From history_manager.can_undo: false on an empty history, otherwise
compares the counter with the smallest stored generation. -/
def can_undo (s : EngineState) : Bool :=
  if s.history = [] then false
  else pyMin (sortKeys s.history) < s.gen_counter

/-- From history_manager.can_redo: false on an empty history, otherwise
compares the counter with the largest stored generation. -/
def can_redo (s : EngineState) : Bool :=
  if s.history = [] then false
  else s.gen_counter < pyMax (sortKeys s.history)

/-- The JSON payload save_history_to_file writes: the history map, the
current generation and the live grid.  The file renders keys in decimal
and load_history_from_file parses them back with int(), the identity on
canonical decimals, so keys stay Nat here. -/
structure SaveData where
  history : History
  current_gen : Nat
  grid_state : Grid
  deriving DecidableEq

/-- From history_manager.save_history_to_file: the data written (write
errors are swallowed by the source and change no state). -/
def save_history_to_file (s : EngineState) : SaveData :=
  { history := s.history, current_gen := s.gen_counter, grid_state := s.T }

/-- From history_manager.load_history_from_file, applied to parsed file
data: replaces the history dict, restores the generation counter, and,
when both the saved grid and the live grid are nonempty, copies the saved
grid over the live grid at the indices both grids have (the source's
bounds check clips instead of raising). -/
def load_history_from_file (d : SaveData) (s : EngineState) : EngineState :=
  let s1 := { s with history := d.history, gen_counter := d.current_gen }
  if d.grid_state ≠ [] ∧ s.T ≠ [] then
    { s1 with T := copyInto s.T d.grid_state }
  else s1

/-- The swap block of gamelife_core.barrier_action (under swap_lock): the
computed grid becomes current, the old current grid becomes the next
buffer, and the generation counter is incremented, as one atomic unit. -/
def barrier_swap (s : EngineState) : EngineState :=
  { s with T := s.Tnext, Tnext := s.T, gen_counter := s.gen_counter + 1 }

/-- From gamelife_core.barrier_action, as a fallible computation.  The
source wraps nothing in try/except, so an exception raised by the swap
block or by save_state_to_history propagates out of the action and the
remaining steps never run; swapRaises and saveRaises select those
modelled executions (the normal execution has both false).  The pacing
sleep at the end changes no state and is omitted. -/
def barrier_action (swapRaises saveRaises : Bool) (s : EngineState) :
    Except String EngineState :=
  if swapRaises then Except.error "swap" else
  let s1 := barrier_swap s
  if saveRaises then Except.error "snapshot" else
  let s2 := save_state_to_history s1
  let s3 := { s2 with redraw := true }
  if s3.step_flag then Except.ok { s3 with running := false, step_flag := false }
  else Except.ok s3

/-- From gamelife_core.randomize_grid: every interior cell is overwritten
with a fresh random draw (1 with probability 0.25); the draws are
abstracted as the bit function r. -/
def randomize_grid (r : Nat → Nat → Bool) (n : Nat) (g : Grid) : Grid :=
  List.mapIdx (fun i row => List.mapIdx (fun j v =>
    if 1 ≤ i ∧ i ≤ n ∧ 1 ≤ j ∧ j ≤ n then (if r i j then 1 else 0) else v) row) g

/-- From gamelife_core.clear_grid: every interior cell is set to 0. -/
def clear_grid (n : Nat) (g : Grid) : Grid :=
  List.mapIdx (fun i row => List.mapIdx (fun j v =>
    if 1 ≤ i ∧ i ≤ n ∧ 1 ≤ j ∧ j ≤ n then 0 else v) row) g

/-- Recording m snapshots of a fixed grid g at the consecutive
generations 0, 1, …, m-1 starting from an empty history (the C3
scenario): the history left behind. -/
def recGens (g : Grid) : Nat → History
  | 0 => []
  | m + 1 =>
      (save_state_to_history
        { T := g, Tnext := [], gen_counter := m, history := recGens g m,
          redraw := false, running := false, step_flag := false }).history


/-- Two grids with the same row count and the same length row by row. -/
def sameShape (A B : Grid) : Prop :=
  A.length = B.length ∧
    ∀ i : Nat, i < A.length → (A.getD i []).length = (B.getD i []).length

instance (A B : Grid) : Decidable (sameShape A B) := by
  unfold sameShape
  infer_instance

/-- Every cell of the outer ring of an (n+2) x (n+2) grid reads 0. -/
def ZeroBorder (n : Nat) (g : Grid) : Prop :=
  ∀ i : Nat, i < n + 2 → ∀ j : Nat, j < n + 2 →
    (i = 0 ∨ i = n + 1 ∨ j = 0 ∨ j = n + 1) → getCell g i j = 0

instance (n : Nat) (g : Grid) : Decidable (ZeroBorder n g) := by
  unfold ZeroBorder
  infer_instance

end GameLife

namespace GameLife

theorem getCell_gridOfFn {n i j : Nat} (f : Nat → Nat → Nat)
    (hi : i < n + 2) (hj : j < n + 2) :
    getCell (gridOfFn n f) i j = f i j := by
  simp [getCell, gridOfFn, List.getD_eq_getElem?_getD, List.getElem?_map,
    List.getElem?_range, hi, hj]

theorem getCell_make_grid (size i j : Nat) : getCell (make_grid size) i j = 0 := by
  simp only [getCell, make_grid, List.getD_eq_getElem?_getD, List.getElem?_replicate]
  by_cases hi : i < size + 2 <;> by_cases hj : j < size + 2 <;> simp [hi, hj]

theorem mem_range'_one {s n m : Nat} : m ∈ List.range' s n ↔ s ≤ m ∧ m < s + n := by
  rw [List.mem_range']
  constructor
  · rintro ⟨i, hi, rfl⟩
    omega
  · intro h
    exact ⟨m - s, by omega, by omega⟩

/-- C1: one computation round writes the Conway update of the current grid
into the next grid at every interior cell (i, j). -/
theorem claim_C1_round_writes_conway_update (n i j : Nat) (T Tnext : Grid)
    (hbin : getCell T i j = 0 ∨ getCell T i j = 1)
    (hi1 : 1 ≤ i) (hi2 : i ≤ n) (hj1 : 1 ≤ j) (hj2 : j ≤ n) :
    getCell (computeRound n T Tnext) i j = conwaySpecUpdate T i j := by
  rw [computeRound, getCell_gridOfFn _ (by omega) (by omega)]
  rcases hbin with h | h <;>
    simp [cellNext, conwaySpecUpdate, h, hi1, hi2, hj1, hj2]

theorem claim_C1_witness :
    (getCell (make_grid 1) 1 1 = 0 ∨ getCell (make_grid 1) 1 1 = 1) ∧
      getCell (computeRound 1 (make_grid 1) (make_grid 1)) 1 1 =
        conwaySpecUpdate (make_grid 1) 1 1 :=
  ⟨Or.inl (by decide),
    claim_C1_round_writes_conway_update 1 1 1 (make_grid 1) (make_grid 1)
      (Or.inl (by decide)) (by decide) (by decide) (by decide) (by decide)⟩

/-- C9: has_living_cells returns false iff every interior cell of the grid
is 0 (under the program invariant that cells hold only 0 or 1). -/
theorem claim_C9_has_living_cells_iff (n : Nat) (T : Grid)
    (hbin : ∀ i j : Nat, getCell T i j = 0 ∨ getCell T i j = 1) :
    has_living_cells n T = false ↔
      ∀ i j : Nat, 1 ≤ i → i ≤ n → 1 ≤ j → j ≤ n → getCell T i j = 0 := by
  rw [← Bool.not_eq_true, has_living_cells]
  simp only [List.any_eq_true, beq_iff_eq, not_exists, not_and, mem_range'_one]
  constructor
  · intro h i j h1 h2 h3 h4
    rcases hbin i j with h0 | hone
    · exact h0
    · exact absurd hone (h i ⟨h1, by omega⟩ j ⟨h3, by omega⟩)
  · intro h i hi j hj hone
    rw [h i j hi.1 (by omega) hj.1 (by omega)] at hone
    exact absurd hone (by decide)

theorem claim_C9_witness :
    (∀ i j : Nat, getCell (make_grid 2) i j = 0 ∨ getCell (make_grid 2) i j = 1) ∧
      (has_living_cells 2 (make_grid 2) = false ↔
        ∀ i j : Nat, 1 ≤ i → i ≤ 2 → 1 ≤ j → j ≤ 2 → getCell (make_grid 2) i j = 0) :=
  ⟨fun i j => Or.inl (getCell_make_grid 2 i j),
    claim_C9_has_living_cells_iff 2 (make_grid 2)
      fun i j => Or.inl (getCell_make_grid 2 i j)⟩

theorem ind_one {P : Prop} {v : Nat} (h : P ∧ v = 1 ∨ ¬P ∧ v = 0) (hp : P) : v = 1 := by
  tauto

theorem ind_zero {P : Prop} {v : Nat} (h : P ∧ v = 1 ∨ ¬P ∧ v = 0) (hp : ¬P) : v = 0 := by
  tauto

theorem blinkerV_char (r c x y : Nat) :
    ((x = r-1 ∨ x = r ∨ x = r+1) ∧ y = c) ∧ blinkerV r c x y = 1 ∨
      (¬((x = r-1 ∨ x = r ∨ x = r+1) ∧ y = c)) ∧ blinkerV r c x y = 0 := by
  by_cases h : (x = r-1 ∨ x = r ∨ x = r+1) ∧ y = c <;> simp [blinkerV, h]

theorem blinkerH_char (r c x y : Nat) :
    (x = r ∧ (y = c-1 ∨ y = c ∨ y = c+1)) ∧ blinkerH r c x y = 1 ∨
      (¬(x = r ∧ (y = c-1 ∨ y = c ∨ y = c+1))) ∧ blinkerH r c x y = 0 := by
  by_cases h : x = r ∧ (y = c-1 ∨ y = c ∨ y = c+1) <;> simp [blinkerH, h]

theorem cellNext_char (T : Grid) (i j : Nat) :
    (getCell T i j = 1 ∧ (neighbors T i j = 2 ∨ neighbors T i j = 3) ∧ cellNext T i j = 1) ∨
    (getCell T i j = 1 ∧ ¬(neighbors T i j = 2 ∨ neighbors T i j = 3) ∧ cellNext T i j = 0) ∨
    (getCell T i j ≠ 1 ∧ neighbors T i j = 3 ∧ cellNext T i j = 1) ∨
    (getCell T i j ≠ 1 ∧ neighbors T i j ≠ 3 ∧ cellNext T i j = 0) := by
  by_cases hA : getCell T i j = 1 <;>
    by_cases hB : neighbors T i j = 2 ∨ neighbors T i j = 3 <;>
      by_cases hC : neighbors T i j = 3 <;>
        simp [cellNext, hA, hB, hC] <;> tauto

theorem gridOfFn_eq_of_fn_eq {n : Nat} {f g : Nat → Nat → Nat}
    (h : ∀ i j : Nat, i < n + 2 → j < n + 2 → f i j = g i j) :
    gridOfFn n f = gridOfFn n g := by
  unfold gridOfFn
  refine List.map_congr_left fun i hi => List.map_congr_left fun j hj => ?_
  exact h i j (List.mem_range.1 hi) (List.mem_range.1 hj)

/-- One cell thread applied to a grid holding exactly a vertical blinker yields the horizontal blinker value. -/
theorem blinkerV_cellNext (n r c i j : Nat)
    (h1 : 2 ≤ r) (h2 : r + 1 ≤ n) (h3 : 2 ≤ c) (h4 : c + 1 ≤ n)
    (hi1 : 1 ≤ i) (hi2 : i ≤ n) (hj1 : 1 ≤ j) (hj2 : j ≤ n) :
    cellNext (gridOfFn n (blinkerV r c)) i j = blinkerH r c i j := by
  have hV : ∀ x y : Nat, x < n + 2 → y < n + 2 →
      getCell (gridOfFn n (blinkerV r c)) x y = blinkerV r c x y :=
    fun x y hx hy => getCell_gridOfFn _ hx hy
  have hg := hV i j (by omega) (by omega)
  have hnb : neighbors (gridOfFn n (blinkerV r c)) i j =
      blinkerV r c (i-1) (j-1) +
      blinkerV r c (i-1) j +
      blinkerV r c (i-1) (j+1) +
      blinkerV r c i (j-1) +
      blinkerV r c i (j+1) +
      blinkerV r c (i+1) (j-1) +
      blinkerV r c (i+1) j +
      blinkerV r c (i+1) (j+1) := by
    rw [neighbors, hV (i-1) (j-1) (by omega) (by omega), hV (i-1) j (by omega) (by omega), hV (i-1) (j+1) (by omega) (by omega), hV i (j-1) (by omega) (by omega), hV i (j+1) (by omega) (by omega), hV (i+1) (j-1) (by omega) (by omega), hV (i+1) j (by omega) (by omega), hV (i+1) (j+1) (by omega) (by omega)]
  have e0 := blinkerV_char r c i j
  have e1 := blinkerV_char r c (i-1) (j-1)
  have e2 := blinkerV_char r c (i-1) j
  have e3 := blinkerV_char r c (i-1) (j+1)
  have e4 := blinkerV_char r c i (j-1)
  have e5 := blinkerV_char r c i (j+1)
  have e6 := blinkerV_char r c (i+1) (j-1)
  have e7 := blinkerV_char r c (i+1) j
  have e8 := blinkerV_char r c (i+1) (j+1)
  have hH := blinkerH_char r c i j
  rcases (by omega : i + 2 = r ∨ i + 1 = r ∨ i = r ∨ i = r + 1 ∨ i = r + 2 ∨ (i + 2 < r ∨ r + 2 < i)) with hI | hI | hI | hI | hI | hI
  · rcases (by omega : j + 1 = c ∨ j = c ∨ j = c + 1 ∨ (j + 1 < c ∨ c + 1 < j)) with hJ | hJ | hJ | hJ
    · have g0 : blinkerV r c i j = 0 := ind_zero e0 (by omega)
      have g1 : blinkerV r c (i-1) (j-1) = 0 := ind_zero e1 (by omega)
      have g2 : blinkerV r c (i-1) j = 0 := ind_zero e2 (by omega)
      have g3 : blinkerV r c (i-1) (j+1) = 0 := ind_zero e3 (by omega)
      have g4 : blinkerV r c i (j-1) = 0 := ind_zero e4 (by omega)
      have g5 : blinkerV r c i (j+1) = 0 := ind_zero e5 (by omega)
      have g6 : blinkerV r c (i+1) (j-1) = 0 := ind_zero e6 (by omega)
      have g7 : blinkerV r c (i+1) j = 0 := ind_zero e7 (by omega)
      have g8 : blinkerV r c (i+1) (j+1) = 1 := ind_one e8 (by omega)
      have hHv : blinkerH r c i j = 0 := ind_zero hH (by omega)
      have hgv : getCell (gridOfFn n (blinkerV r c)) i j = 0 := by rw [hg, g0]
      have hnbv : neighbors (gridOfFn n (blinkerV r c)) i j = 1 := by
        rw [hnb, g1, g2, g3, g4, g5, g6, g7, g8]
      rw [hHv]
      simp only [cellNext, hgv, hnbv]
      norm_num
    · have g0 : blinkerV r c i j = 0 := ind_zero e0 (by omega)
      have g1 : blinkerV r c (i-1) (j-1) = 0 := ind_zero e1 (by omega)
      have g2 : blinkerV r c (i-1) j = 0 := ind_zero e2 (by omega)
      have g3 : blinkerV r c (i-1) (j+1) = 0 := ind_zero e3 (by omega)
      have g4 : blinkerV r c i (j-1) = 0 := ind_zero e4 (by omega)
      have g5 : blinkerV r c i (j+1) = 0 := ind_zero e5 (by omega)
      have g6 : blinkerV r c (i+1) (j-1) = 0 := ind_zero e6 (by omega)
      have g7 : blinkerV r c (i+1) j = 1 := ind_one e7 (by omega)
      have g8 : blinkerV r c (i+1) (j+1) = 0 := ind_zero e8 (by omega)
      have hHv : blinkerH r c i j = 0 := ind_zero hH (by omega)
      have hgv : getCell (gridOfFn n (blinkerV r c)) i j = 0 := by rw [hg, g0]
      have hnbv : neighbors (gridOfFn n (blinkerV r c)) i j = 1 := by
        rw [hnb, g1, g2, g3, g4, g5, g6, g7, g8]
      rw [hHv]
      simp only [cellNext, hgv, hnbv]
      norm_num
    · have g0 : blinkerV r c i j = 0 := ind_zero e0 (by omega)
      have g1 : blinkerV r c (i-1) (j-1) = 0 := ind_zero e1 (by omega)
      have g2 : blinkerV r c (i-1) j = 0 := ind_zero e2 (by omega)
      have g3 : blinkerV r c (i-1) (j+1) = 0 := ind_zero e3 (by omega)
      have g4 : blinkerV r c i (j-1) = 0 := ind_zero e4 (by omega)
      have g5 : blinkerV r c i (j+1) = 0 := ind_zero e5 (by omega)
      have g6 : blinkerV r c (i+1) (j-1) = 1 := ind_one e6 (by omega)
      have g7 : blinkerV r c (i+1) j = 0 := ind_zero e7 (by omega)
      have g8 : blinkerV r c (i+1) (j+1) = 0 := ind_zero e8 (by omega)
      have hHv : blinkerH r c i j = 0 := ind_zero hH (by omega)
      have hgv : getCell (gridOfFn n (blinkerV r c)) i j = 0 := by rw [hg, g0]
      have hnbv : neighbors (gridOfFn n (blinkerV r c)) i j = 1 := by
        rw [hnb, g1, g2, g3, g4, g5, g6, g7, g8]
      rw [hHv]
      simp only [cellNext, hgv, hnbv]
      norm_num
    · have g0 : blinkerV r c i j = 0 := ind_zero e0 (by omega)
      have g1 : blinkerV r c (i-1) (j-1) = 0 := ind_zero e1 (by omega)
      have g2 : blinkerV r c (i-1) j = 0 := ind_zero e2 (by omega)
      have g3 : blinkerV r c (i-1) (j+1) = 0 := ind_zero e3 (by omega)
      have g4 : blinkerV r c i (j-1) = 0 := ind_zero e4 (by omega)
      have g5 : blinkerV r c i (j+1) = 0 := ind_zero e5 (by omega)
      have g6 : blinkerV r c (i+1) (j-1) = 0 := ind_zero e6 (by omega)
      have g7 : blinkerV r c (i+1) j = 0 := ind_zero e7 (by omega)
      have g8 : blinkerV r c (i+1) (j+1) = 0 := ind_zero e8 (by omega)
      have hHv : blinkerH r c i j = 0 := ind_zero hH (by omega)
      have hgv : getCell (gridOfFn n (blinkerV r c)) i j = 0 := by rw [hg, g0]
      have hnbv : neighbors (gridOfFn n (blinkerV r c)) i j = 0 := by
        rw [hnb, g1, g2, g3, g4, g5, g6, g7, g8]
      rw [hHv]
      simp only [cellNext, hgv, hnbv]
      norm_num
  · rcases (by omega : j + 1 = c ∨ j = c ∨ j = c + 1 ∨ (j + 1 < c ∨ c + 1 < j)) with hJ | hJ | hJ | hJ
    · have g0 : blinkerV r c i j = 0 := ind_zero e0 (by omega)
      have g1 : blinkerV r c (i-1) (j-1) = 0 := ind_zero e1 (by omega)
      have g2 : blinkerV r c (i-1) j = 0 := ind_zero e2 (by omega)
      have g3 : blinkerV r c (i-1) (j+1) = 0 := ind_zero e3 (by omega)
      have g4 : blinkerV r c i (j-1) = 0 := ind_zero e4 (by omega)
      have g5 : blinkerV r c i (j+1) = 1 := ind_one e5 (by omega)
      have g6 : blinkerV r c (i+1) (j-1) = 0 := ind_zero e6 (by omega)
      have g7 : blinkerV r c (i+1) j = 0 := ind_zero e7 (by omega)
      have g8 : blinkerV r c (i+1) (j+1) = 1 := ind_one e8 (by omega)
      have hHv : blinkerH r c i j = 0 := ind_zero hH (by omega)
      have hgv : getCell (gridOfFn n (blinkerV r c)) i j = 0 := by rw [hg, g0]
      have hnbv : neighbors (gridOfFn n (blinkerV r c)) i j = 2 := by
        rw [hnb, g1, g2, g3, g4, g5, g6, g7, g8]
      rw [hHv]
      simp only [cellNext, hgv, hnbv]
      norm_num
    · have g0 : blinkerV r c i j = 1 := ind_one e0 (by omega)
      have g1 : blinkerV r c (i-1) (j-1) = 0 := ind_zero e1 (by omega)
      have g2 : blinkerV r c (i-1) j = 0 := ind_zero e2 (by omega)
      have g3 : blinkerV r c (i-1) (j+1) = 0 := ind_zero e3 (by omega)
      have g4 : blinkerV r c i (j-1) = 0 := ind_zero e4 (by omega)
      have g5 : blinkerV r c i (j+1) = 0 := ind_zero e5 (by omega)
      have g6 : blinkerV r c (i+1) (j-1) = 0 := ind_zero e6 (by omega)
      have g7 : blinkerV r c (i+1) j = 1 := ind_one e7 (by omega)
      have g8 : blinkerV r c (i+1) (j+1) = 0 := ind_zero e8 (by omega)
      have hHv : blinkerH r c i j = 0 := ind_zero hH (by omega)
      have hgv : getCell (gridOfFn n (blinkerV r c)) i j = 1 := by rw [hg, g0]
      have hnbv : neighbors (gridOfFn n (blinkerV r c)) i j = 1 := by
        rw [hnb, g1, g2, g3, g4, g5, g6, g7, g8]
      rw [hHv]
      simp only [cellNext, hgv, hnbv]
      norm_num
    · have g0 : blinkerV r c i j = 0 := ind_zero e0 (by omega)
      have g1 : blinkerV r c (i-1) (j-1) = 0 := ind_zero e1 (by omega)
      have g2 : blinkerV r c (i-1) j = 0 := ind_zero e2 (by omega)
      have g3 : blinkerV r c (i-1) (j+1) = 0 := ind_zero e3 (by omega)
      have g4 : blinkerV r c i (j-1) = 1 := ind_one e4 (by omega)
      have g5 : blinkerV r c i (j+1) = 0 := ind_zero e5 (by omega)
      have g6 : blinkerV r c (i+1) (j-1) = 1 := ind_one e6 (by omega)
      have g7 : blinkerV r c (i+1) j = 0 := ind_zero e7 (by omega)
      have g8 : blinkerV r c (i+1) (j+1) = 0 := ind_zero e8 (by omega)
      have hHv : blinkerH r c i j = 0 := ind_zero hH (by omega)
      have hgv : getCell (gridOfFn n (blinkerV r c)) i j = 0 := by rw [hg, g0]
      have hnbv : neighbors (gridOfFn n (blinkerV r c)) i j = 2 := by
        rw [hnb, g1, g2, g3, g4, g5, g6, g7, g8]
      rw [hHv]
      simp only [cellNext, hgv, hnbv]
      norm_num
    · have g0 : blinkerV r c i j = 0 := ind_zero e0 (by omega)
      have g1 : blinkerV r c (i-1) (j-1) = 0 := ind_zero e1 (by omega)
      have g2 : blinkerV r c (i-1) j = 0 := ind_zero e2 (by omega)
      have g3 : blinkerV r c (i-1) (j+1) = 0 := ind_zero e3 (by omega)
      have g4 : blinkerV r c i (j-1) = 0 := ind_zero e4 (by omega)
      have g5 : blinkerV r c i (j+1) = 0 := ind_zero e5 (by omega)
      have g6 : blinkerV r c (i+1) (j-1) = 0 := ind_zero e6 (by omega)
      have g7 : blinkerV r c (i+1) j = 0 := ind_zero e7 (by omega)
      have g8 : blinkerV r c (i+1) (j+1) = 0 := ind_zero e8 (by omega)
      have hHv : blinkerH r c i j = 0 := ind_zero hH (by omega)
      have hgv : getCell (gridOfFn n (blinkerV r c)) i j = 0 := by rw [hg, g0]
      have hnbv : neighbors (gridOfFn n (blinkerV r c)) i j = 0 := by
        rw [hnb, g1, g2, g3, g4, g5, g6, g7, g8]
      rw [hHv]
      simp only [cellNext, hgv, hnbv]
      norm_num
  · rcases (by omega : j + 1 = c ∨ j = c ∨ j = c + 1 ∨ (j + 1 < c ∨ c + 1 < j)) with hJ | hJ | hJ | hJ
    · have g0 : blinkerV r c i j = 0 := ind_zero e0 (by omega)
      have g1 : blinkerV r c (i-1) (j-1) = 0 := ind_zero e1 (by omega)
      have g2 : blinkerV r c (i-1) j = 0 := ind_zero e2 (by omega)
      have g3 : blinkerV r c (i-1) (j+1) = 1 := ind_one e3 (by omega)
      have g4 : blinkerV r c i (j-1) = 0 := ind_zero e4 (by omega)
      have g5 : blinkerV r c i (j+1) = 1 := ind_one e5 (by omega)
      have g6 : blinkerV r c (i+1) (j-1) = 0 := ind_zero e6 (by omega)
      have g7 : blinkerV r c (i+1) j = 0 := ind_zero e7 (by omega)
      have g8 : blinkerV r c (i+1) (j+1) = 1 := ind_one e8 (by omega)
      have hHv : blinkerH r c i j = 1 := ind_one hH (by omega)
      have hgv : getCell (gridOfFn n (blinkerV r c)) i j = 0 := by rw [hg, g0]
      have hnbv : neighbors (gridOfFn n (blinkerV r c)) i j = 3 := by
        rw [hnb, g1, g2, g3, g4, g5, g6, g7, g8]
      rw [hHv]
      simp only [cellNext, hgv, hnbv]
      norm_num
    · have g0 : blinkerV r c i j = 1 := ind_one e0 (by omega)
      have g1 : blinkerV r c (i-1) (j-1) = 0 := ind_zero e1 (by omega)
      have g2 : blinkerV r c (i-1) j = 1 := ind_one e2 (by omega)
      have g3 : blinkerV r c (i-1) (j+1) = 0 := ind_zero e3 (by omega)
      have g4 : blinkerV r c i (j-1) = 0 := ind_zero e4 (by omega)
      have g5 : blinkerV r c i (j+1) = 0 := ind_zero e5 (by omega)
      have g6 : blinkerV r c (i+1) (j-1) = 0 := ind_zero e6 (by omega)
      have g7 : blinkerV r c (i+1) j = 1 := ind_one e7 (by omega)
      have g8 : blinkerV r c (i+1) (j+1) = 0 := ind_zero e8 (by omega)
      have hHv : blinkerH r c i j = 1 := ind_one hH (by omega)
      have hgv : getCell (gridOfFn n (blinkerV r c)) i j = 1 := by rw [hg, g0]
      have hnbv : neighbors (gridOfFn n (blinkerV r c)) i j = 2 := by
        rw [hnb, g1, g2, g3, g4, g5, g6, g7, g8]
      rw [hHv]
      simp only [cellNext, hgv, hnbv]
      norm_num
    · have g0 : blinkerV r c i j = 0 := ind_zero e0 (by omega)
      have g1 : blinkerV r c (i-1) (j-1) = 1 := ind_one e1 (by omega)
      have g2 : blinkerV r c (i-1) j = 0 := ind_zero e2 (by omega)
      have g3 : blinkerV r c (i-1) (j+1) = 0 := ind_zero e3 (by omega)
      have g4 : blinkerV r c i (j-1) = 1 := ind_one e4 (by omega)
      have g5 : blinkerV r c i (j+1) = 0 := ind_zero e5 (by omega)
      have g6 : blinkerV r c (i+1) (j-1) = 1 := ind_one e6 (by omega)
      have g7 : blinkerV r c (i+1) j = 0 := ind_zero e7 (by omega)
      have g8 : blinkerV r c (i+1) (j+1) = 0 := ind_zero e8 (by omega)
      have hHv : blinkerH r c i j = 1 := ind_one hH (by omega)
      have hgv : getCell (gridOfFn n (blinkerV r c)) i j = 0 := by rw [hg, g0]
      have hnbv : neighbors (gridOfFn n (blinkerV r c)) i j = 3 := by
        rw [hnb, g1, g2, g3, g4, g5, g6, g7, g8]
      rw [hHv]
      simp only [cellNext, hgv, hnbv]
      norm_num
    · have g0 : blinkerV r c i j = 0 := ind_zero e0 (by omega)
      have g1 : blinkerV r c (i-1) (j-1) = 0 := ind_zero e1 (by omega)
      have g2 : blinkerV r c (i-1) j = 0 := ind_zero e2 (by omega)
      have g3 : blinkerV r c (i-1) (j+1) = 0 := ind_zero e3 (by omega)
      have g4 : blinkerV r c i (j-1) = 0 := ind_zero e4 (by omega)
      have g5 : blinkerV r c i (j+1) = 0 := ind_zero e5 (by omega)
      have g6 : blinkerV r c (i+1) (j-1) = 0 := ind_zero e6 (by omega)
      have g7 : blinkerV r c (i+1) j = 0 := ind_zero e7 (by omega)
      have g8 : blinkerV r c (i+1) (j+1) = 0 := ind_zero e8 (by omega)
      have hHv : blinkerH r c i j = 0 := ind_zero hH (by omega)
      have hgv : getCell (gridOfFn n (blinkerV r c)) i j = 0 := by rw [hg, g0]
      have hnbv : neighbors (gridOfFn n (blinkerV r c)) i j = 0 := by
        rw [hnb, g1, g2, g3, g4, g5, g6, g7, g8]
      rw [hHv]
      simp only [cellNext, hgv, hnbv]
      norm_num
  · rcases (by omega : j + 1 = c ∨ j = c ∨ j = c + 1 ∨ (j + 1 < c ∨ c + 1 < j)) with hJ | hJ | hJ | hJ
    · have g0 : blinkerV r c i j = 0 := ind_zero e0 (by omega)
      have g1 : blinkerV r c (i-1) (j-1) = 0 := ind_zero e1 (by omega)
      have g2 : blinkerV r c (i-1) j = 0 := ind_zero e2 (by omega)
      have g3 : blinkerV r c (i-1) (j+1) = 1 := ind_one e3 (by omega)
      have g4 : blinkerV r c i (j-1) = 0 := ind_zero e4 (by omega)
      have g5 : blinkerV r c i (j+1) = 1 := ind_one e5 (by omega)
      have g6 : blinkerV r c (i+1) (j-1) = 0 := ind_zero e6 (by omega)
      have g7 : blinkerV r c (i+1) j = 0 := ind_zero e7 (by omega)
      have g8 : blinkerV r c (i+1) (j+1) = 0 := ind_zero e8 (by omega)
      have hHv : blinkerH r c i j = 0 := ind_zero hH (by omega)
      have hgv : getCell (gridOfFn n (blinkerV r c)) i j = 0 := by rw [hg, g0]
      have hnbv : neighbors (gridOfFn n (blinkerV r c)) i j = 2 := by
        rw [hnb, g1, g2, g3, g4, g5, g6, g7, g8]
      rw [hHv]
      simp only [cellNext, hgv, hnbv]
      norm_num
    · have g0 : blinkerV r c i j = 1 := ind_one e0 (by omega)
      have g1 : blinkerV r c (i-1) (j-1) = 0 := ind_zero e1 (by omega)
      have g2 : blinkerV r c (i-1) j = 1 := ind_one e2 (by omega)
      have g3 : blinkerV r c (i-1) (j+1) = 0 := ind_zero e3 (by omega)
      have g4 : blinkerV r c i (j-1) = 0 := ind_zero e4 (by omega)
      have g5 : blinkerV r c i (j+1) = 0 := ind_zero e5 (by omega)
      have g6 : blinkerV r c (i+1) (j-1) = 0 := ind_zero e6 (by omega)
      have g7 : blinkerV r c (i+1) j = 0 := ind_zero e7 (by omega)
      have g8 : blinkerV r c (i+1) (j+1) = 0 := ind_zero e8 (by omega)
      have hHv : blinkerH r c i j = 0 := ind_zero hH (by omega)
      have hgv : getCell (gridOfFn n (blinkerV r c)) i j = 1 := by rw [hg, g0]
      have hnbv : neighbors (gridOfFn n (blinkerV r c)) i j = 1 := by
        rw [hnb, g1, g2, g3, g4, g5, g6, g7, g8]
      rw [hHv]
      simp only [cellNext, hgv, hnbv]
      norm_num
    · have g0 : blinkerV r c i j = 0 := ind_zero e0 (by omega)
      have g1 : blinkerV r c (i-1) (j-1) = 1 := ind_one e1 (by omega)
      have g2 : blinkerV r c (i-1) j = 0 := ind_zero e2 (by omega)
      have g3 : blinkerV r c (i-1) (j+1) = 0 := ind_zero e3 (by omega)
      have g4 : blinkerV r c i (j-1) = 1 := ind_one e4 (by omega)
      have g5 : blinkerV r c i (j+1) = 0 := ind_zero e5 (by omega)
      have g6 : blinkerV r c (i+1) (j-1) = 0 := ind_zero e6 (by omega)
      have g7 : blinkerV r c (i+1) j = 0 := ind_zero e7 (by omega)
      have g8 : blinkerV r c (i+1) (j+1) = 0 := ind_zero e8 (by omega)
      have hHv : blinkerH r c i j = 0 := ind_zero hH (by omega)
      have hgv : getCell (gridOfFn n (blinkerV r c)) i j = 0 := by rw [hg, g0]
      have hnbv : neighbors (gridOfFn n (blinkerV r c)) i j = 2 := by
        rw [hnb, g1, g2, g3, g4, g5, g6, g7, g8]
      rw [hHv]
      simp only [cellNext, hgv, hnbv]
      norm_num
    · have g0 : blinkerV r c i j = 0 := ind_zero e0 (by omega)
      have g1 : blinkerV r c (i-1) (j-1) = 0 := ind_zero e1 (by omega)
      have g2 : blinkerV r c (i-1) j = 0 := ind_zero e2 (by omega)
      have g3 : blinkerV r c (i-1) (j+1) = 0 := ind_zero e3 (by omega)
      have g4 : blinkerV r c i (j-1) = 0 := ind_zero e4 (by omega)
      have g5 : blinkerV r c i (j+1) = 0 := ind_zero e5 (by omega)
      have g6 : blinkerV r c (i+1) (j-1) = 0 := ind_zero e6 (by omega)
      have g7 : blinkerV r c (i+1) j = 0 := ind_zero e7 (by omega)
      have g8 : blinkerV r c (i+1) (j+1) = 0 := ind_zero e8 (by omega)
      have hHv : blinkerH r c i j = 0 := ind_zero hH (by omega)
      have hgv : getCell (gridOfFn n (blinkerV r c)) i j = 0 := by rw [hg, g0]
      have hnbv : neighbors (gridOfFn n (blinkerV r c)) i j = 0 := by
        rw [hnb, g1, g2, g3, g4, g5, g6, g7, g8]
      rw [hHv]
      simp only [cellNext, hgv, hnbv]
      norm_num
  · rcases (by omega : j + 1 = c ∨ j = c ∨ j = c + 1 ∨ (j + 1 < c ∨ c + 1 < j)) with hJ | hJ | hJ | hJ
    · have g0 : blinkerV r c i j = 0 := ind_zero e0 (by omega)
      have g1 : blinkerV r c (i-1) (j-1) = 0 := ind_zero e1 (by omega)
      have g2 : blinkerV r c (i-1) j = 0 := ind_zero e2 (by omega)
      have g3 : blinkerV r c (i-1) (j+1) = 1 := ind_one e3 (by omega)
      have g4 : blinkerV r c i (j-1) = 0 := ind_zero e4 (by omega)
      have g5 : blinkerV r c i (j+1) = 0 := ind_zero e5 (by omega)
      have g6 : blinkerV r c (i+1) (j-1) = 0 := ind_zero e6 (by omega)
      have g7 : blinkerV r c (i+1) j = 0 := ind_zero e7 (by omega)
      have g8 : blinkerV r c (i+1) (j+1) = 0 := ind_zero e8 (by omega)
      have hHv : blinkerH r c i j = 0 := ind_zero hH (by omega)
      have hgv : getCell (gridOfFn n (blinkerV r c)) i j = 0 := by rw [hg, g0]
      have hnbv : neighbors (gridOfFn n (blinkerV r c)) i j = 1 := by
        rw [hnb, g1, g2, g3, g4, g5, g6, g7, g8]
      rw [hHv]
      simp only [cellNext, hgv, hnbv]
      norm_num
    · have g0 : blinkerV r c i j = 0 := ind_zero e0 (by omega)
      have g1 : blinkerV r c (i-1) (j-1) = 0 := ind_zero e1 (by omega)
      have g2 : blinkerV r c (i-1) j = 1 := ind_one e2 (by omega)
      have g3 : blinkerV r c (i-1) (j+1) = 0 := ind_zero e3 (by omega)
      have g4 : blinkerV r c i (j-1) = 0 := ind_zero e4 (by omega)
      have g5 : blinkerV r c i (j+1) = 0 := ind_zero e5 (by omega)
      have g6 : blinkerV r c (i+1) (j-1) = 0 := ind_zero e6 (by omega)
      have g7 : blinkerV r c (i+1) j = 0 := ind_zero e7 (by omega)
      have g8 : blinkerV r c (i+1) (j+1) = 0 := ind_zero e8 (by omega)
      have hHv : blinkerH r c i j = 0 := ind_zero hH (by omega)
      have hgv : getCell (gridOfFn n (blinkerV r c)) i j = 0 := by rw [hg, g0]
      have hnbv : neighbors (gridOfFn n (blinkerV r c)) i j = 1 := by
        rw [hnb, g1, g2, g3, g4, g5, g6, g7, g8]
      rw [hHv]
      simp only [cellNext, hgv, hnbv]
      norm_num
    · have g0 : blinkerV r c i j = 0 := ind_zero e0 (by omega)
      have g1 : blinkerV r c (i-1) (j-1) = 1 := ind_one e1 (by omega)
      have g2 : blinkerV r c (i-1) j = 0 := ind_zero e2 (by omega)
      have g3 : blinkerV r c (i-1) (j+1) = 0 := ind_zero e3 (by omega)
      have g4 : blinkerV r c i (j-1) = 0 := ind_zero e4 (by omega)
      have g5 : blinkerV r c i (j+1) = 0 := ind_zero e5 (by omega)
      have g6 : blinkerV r c (i+1) (j-1) = 0 := ind_zero e6 (by omega)
      have g7 : blinkerV r c (i+1) j = 0 := ind_zero e7 (by omega)
      have g8 : blinkerV r c (i+1) (j+1) = 0 := ind_zero e8 (by omega)
      have hHv : blinkerH r c i j = 0 := ind_zero hH (by omega)
      have hgv : getCell (gridOfFn n (blinkerV r c)) i j = 0 := by rw [hg, g0]
      have hnbv : neighbors (gridOfFn n (blinkerV r c)) i j = 1 := by
        rw [hnb, g1, g2, g3, g4, g5, g6, g7, g8]
      rw [hHv]
      simp only [cellNext, hgv, hnbv]
      norm_num
    · have g0 : blinkerV r c i j = 0 := ind_zero e0 (by omega)
      have g1 : blinkerV r c (i-1) (j-1) = 0 := ind_zero e1 (by omega)
      have g2 : blinkerV r c (i-1) j = 0 := ind_zero e2 (by omega)
      have g3 : blinkerV r c (i-1) (j+1) = 0 := ind_zero e3 (by omega)
      have g4 : blinkerV r c i (j-1) = 0 := ind_zero e4 (by omega)
      have g5 : blinkerV r c i (j+1) = 0 := ind_zero e5 (by omega)
      have g6 : blinkerV r c (i+1) (j-1) = 0 := ind_zero e6 (by omega)
      have g7 : blinkerV r c (i+1) j = 0 := ind_zero e7 (by omega)
      have g8 : blinkerV r c (i+1) (j+1) = 0 := ind_zero e8 (by omega)
      have hHv : blinkerH r c i j = 0 := ind_zero hH (by omega)
      have hgv : getCell (gridOfFn n (blinkerV r c)) i j = 0 := by rw [hg, g0]
      have hnbv : neighbors (gridOfFn n (blinkerV r c)) i j = 0 := by
        rw [hnb, g1, g2, g3, g4, g5, g6, g7, g8]
      rw [hHv]
      simp only [cellNext, hgv, hnbv]
      norm_num
  · rcases (by omega : j + 1 = c ∨ j = c ∨ j = c + 1 ∨ (j + 1 < c ∨ c + 1 < j)) with hJ | hJ | hJ | hJ
    · have g0 : blinkerV r c i j = 0 := ind_zero e0 (by omega)
      have g1 : blinkerV r c (i-1) (j-1) = 0 := ind_zero e1 (by omega)
      have g2 : blinkerV r c (i-1) j = 0 := ind_zero e2 (by omega)
      have g3 : blinkerV r c (i-1) (j+1) = 0 := ind_zero e3 (by omega)
      have g4 : blinkerV r c i (j-1) = 0 := ind_zero e4 (by omega)
      have g5 : blinkerV r c i (j+1) = 0 := ind_zero e5 (by omega)
      have g6 : blinkerV r c (i+1) (j-1) = 0 := ind_zero e6 (by omega)
      have g7 : blinkerV r c (i+1) j = 0 := ind_zero e7 (by omega)
      have g8 : blinkerV r c (i+1) (j+1) = 0 := ind_zero e8 (by omega)
      have hHv : blinkerH r c i j = 0 := ind_zero hH (by omega)
      have hgv : getCell (gridOfFn n (blinkerV r c)) i j = 0 := by rw [hg, g0]
      have hnbv : neighbors (gridOfFn n (blinkerV r c)) i j = 0 := by
        rw [hnb, g1, g2, g3, g4, g5, g6, g7, g8]
      rw [hHv]
      simp only [cellNext, hgv, hnbv]
      norm_num
    · have g0 : blinkerV r c i j = 0 := ind_zero e0 (by omega)
      have g1 : blinkerV r c (i-1) (j-1) = 0 := ind_zero e1 (by omega)
      have g2 : blinkerV r c (i-1) j = 0 := ind_zero e2 (by omega)
      have g3 : blinkerV r c (i-1) (j+1) = 0 := ind_zero e3 (by omega)
      have g4 : blinkerV r c i (j-1) = 0 := ind_zero e4 (by omega)
      have g5 : blinkerV r c i (j+1) = 0 := ind_zero e5 (by omega)
      have g6 : blinkerV r c (i+1) (j-1) = 0 := ind_zero e6 (by omega)
      have g7 : blinkerV r c (i+1) j = 0 := ind_zero e7 (by omega)
      have g8 : blinkerV r c (i+1) (j+1) = 0 := ind_zero e8 (by omega)
      have hHv : blinkerH r c i j = 0 := ind_zero hH (by omega)
      have hgv : getCell (gridOfFn n (blinkerV r c)) i j = 0 := by rw [hg, g0]
      have hnbv : neighbors (gridOfFn n (blinkerV r c)) i j = 0 := by
        rw [hnb, g1, g2, g3, g4, g5, g6, g7, g8]
      rw [hHv]
      simp only [cellNext, hgv, hnbv]
      norm_num
    · have g0 : blinkerV r c i j = 0 := ind_zero e0 (by omega)
      have g1 : blinkerV r c (i-1) (j-1) = 0 := ind_zero e1 (by omega)
      have g2 : blinkerV r c (i-1) j = 0 := ind_zero e2 (by omega)
      have g3 : blinkerV r c (i-1) (j+1) = 0 := ind_zero e3 (by omega)
      have g4 : blinkerV r c i (j-1) = 0 := ind_zero e4 (by omega)
      have g5 : blinkerV r c i (j+1) = 0 := ind_zero e5 (by omega)
      have g6 : blinkerV r c (i+1) (j-1) = 0 := ind_zero e6 (by omega)
      have g7 : blinkerV r c (i+1) j = 0 := ind_zero e7 (by omega)
      have g8 : blinkerV r c (i+1) (j+1) = 0 := ind_zero e8 (by omega)
      have hHv : blinkerH r c i j = 0 := ind_zero hH (by omega)
      have hgv : getCell (gridOfFn n (blinkerV r c)) i j = 0 := by rw [hg, g0]
      have hnbv : neighbors (gridOfFn n (blinkerV r c)) i j = 0 := by
        rw [hnb, g1, g2, g3, g4, g5, g6, g7, g8]
      rw [hHv]
      simp only [cellNext, hgv, hnbv]
      norm_num
    · have g0 : blinkerV r c i j = 0 := ind_zero e0 (by omega)
      have g1 : blinkerV r c (i-1) (j-1) = 0 := ind_zero e1 (by omega)
      have g2 : blinkerV r c (i-1) j = 0 := ind_zero e2 (by omega)
      have g3 : blinkerV r c (i-1) (j+1) = 0 := ind_zero e3 (by omega)
      have g4 : blinkerV r c i (j-1) = 0 := ind_zero e4 (by omega)
      have g5 : blinkerV r c i (j+1) = 0 := ind_zero e5 (by omega)
      have g6 : blinkerV r c (i+1) (j-1) = 0 := ind_zero e6 (by omega)
      have g7 : blinkerV r c (i+1) j = 0 := ind_zero e7 (by omega)
      have g8 : blinkerV r c (i+1) (j+1) = 0 := ind_zero e8 (by omega)
      have hHv : blinkerH r c i j = 0 := ind_zero hH (by omega)
      have hgv : getCell (gridOfFn n (blinkerV r c)) i j = 0 := by rw [hg, g0]
      have hnbv : neighbors (gridOfFn n (blinkerV r c)) i j = 0 := by
        rw [hnb, g1, g2, g3, g4, g5, g6, g7, g8]
      rw [hHv]
      simp only [cellNext, hgv, hnbv]
      norm_num

/-- One cell thread applied to a grid holding exactly a horizontal blinker yields the vertical blinker value. -/
theorem blinkerH_cellNext (n r c i j : Nat)
    (h1 : 2 ≤ r) (h2 : r + 1 ≤ n) (h3 : 2 ≤ c) (h4 : c + 1 ≤ n)
    (hi1 : 1 ≤ i) (hi2 : i ≤ n) (hj1 : 1 ≤ j) (hj2 : j ≤ n) :
    cellNext (gridOfFn n (blinkerH r c)) i j = blinkerV r c i j := by
  have hV : ∀ x y : Nat, x < n + 2 → y < n + 2 →
      getCell (gridOfFn n (blinkerH r c)) x y = blinkerH r c x y :=
    fun x y hx hy => getCell_gridOfFn _ hx hy
  have hg := hV i j (by omega) (by omega)
  have hnb : neighbors (gridOfFn n (blinkerH r c)) i j =
      blinkerH r c (i-1) (j-1) +
      blinkerH r c (i-1) j +
      blinkerH r c (i-1) (j+1) +
      blinkerH r c i (j-1) +
      blinkerH r c i (j+1) +
      blinkerH r c (i+1) (j-1) +
      blinkerH r c (i+1) j +
      blinkerH r c (i+1) (j+1) := by
    rw [neighbors, hV (i-1) (j-1) (by omega) (by omega), hV (i-1) j (by omega) (by omega), hV (i-1) (j+1) (by omega) (by omega), hV i (j-1) (by omega) (by omega), hV i (j+1) (by omega) (by omega), hV (i+1) (j-1) (by omega) (by omega), hV (i+1) j (by omega) (by omega), hV (i+1) (j+1) (by omega) (by omega)]
  have e0 := blinkerH_char r c i j
  have e1 := blinkerH_char r c (i-1) (j-1)
  have e2 := blinkerH_char r c (i-1) j
  have e3 := blinkerH_char r c (i-1) (j+1)
  have e4 := blinkerH_char r c i (j-1)
  have e5 := blinkerH_char r c i (j+1)
  have e6 := blinkerH_char r c (i+1) (j-1)
  have e7 := blinkerH_char r c (i+1) j
  have e8 := blinkerH_char r c (i+1) (j+1)
  have hH := blinkerV_char r c i j
  rcases (by omega : i + 1 = r ∨ i = r ∨ i = r + 1 ∨ (i + 1 < r ∨ r + 1 < i)) with hI | hI | hI | hI
  · rcases (by omega : j + 2 = c ∨ j + 1 = c ∨ j = c ∨ j = c + 1 ∨ j = c + 2 ∨ (j + 2 < c ∨ c + 2 < j)) with hJ | hJ | hJ | hJ | hJ | hJ
    · have g0 : blinkerH r c i j = 0 := ind_zero e0 (by omega)
      have g1 : blinkerH r c (i-1) (j-1) = 0 := ind_zero e1 (by omega)
      have g2 : blinkerH r c (i-1) j = 0 := ind_zero e2 (by omega)
      have g3 : blinkerH r c (i-1) (j+1) = 0 := ind_zero e3 (by omega)
      have g4 : blinkerH r c i (j-1) = 0 := ind_zero e4 (by omega)
      have g5 : blinkerH r c i (j+1) = 0 := ind_zero e5 (by omega)
      have g6 : blinkerH r c (i+1) (j-1) = 0 := ind_zero e6 (by omega)
      have g7 : blinkerH r c (i+1) j = 0 := ind_zero e7 (by omega)
      have g8 : blinkerH r c (i+1) (j+1) = 1 := ind_one e8 (by omega)
      have hHv : blinkerV r c i j = 0 := ind_zero hH (by omega)
      have hgv : getCell (gridOfFn n (blinkerH r c)) i j = 0 := by rw [hg, g0]
      have hnbv : neighbors (gridOfFn n (blinkerH r c)) i j = 1 := by
        rw [hnb, g1, g2, g3, g4, g5, g6, g7, g8]
      rw [hHv]
      simp only [cellNext, hgv, hnbv]
      norm_num
    · have g0 : blinkerH r c i j = 0 := ind_zero e0 (by omega)
      have g1 : blinkerH r c (i-1) (j-1) = 0 := ind_zero e1 (by omega)
      have g2 : blinkerH r c (i-1) j = 0 := ind_zero e2 (by omega)
      have g3 : blinkerH r c (i-1) (j+1) = 0 := ind_zero e3 (by omega)
      have g4 : blinkerH r c i (j-1) = 0 := ind_zero e4 (by omega)
      have g5 : blinkerH r c i (j+1) = 0 := ind_zero e5 (by omega)
      have g6 : blinkerH r c (i+1) (j-1) = 0 := ind_zero e6 (by omega)
      have g7 : blinkerH r c (i+1) j = 1 := ind_one e7 (by omega)
      have g8 : blinkerH r c (i+1) (j+1) = 1 := ind_one e8 (by omega)
      have hHv : blinkerV r c i j = 0 := ind_zero hH (by omega)
      have hgv : getCell (gridOfFn n (blinkerH r c)) i j = 0 := by rw [hg, g0]
      have hnbv : neighbors (gridOfFn n (blinkerH r c)) i j = 2 := by
        rw [hnb, g1, g2, g3, g4, g5, g6, g7, g8]
      rw [hHv]
      simp only [cellNext, hgv, hnbv]
      norm_num
    · have g0 : blinkerH r c i j = 0 := ind_zero e0 (by omega)
      have g1 : blinkerH r c (i-1) (j-1) = 0 := ind_zero e1 (by omega)
      have g2 : blinkerH r c (i-1) j = 0 := ind_zero e2 (by omega)
      have g3 : blinkerH r c (i-1) (j+1) = 0 := ind_zero e3 (by omega)
      have g4 : blinkerH r c i (j-1) = 0 := ind_zero e4 (by omega)
      have g5 : blinkerH r c i (j+1) = 0 := ind_zero e5 (by omega)
      have g6 : blinkerH r c (i+1) (j-1) = 1 := ind_one e6 (by omega)
      have g7 : blinkerH r c (i+1) j = 1 := ind_one e7 (by omega)
      have g8 : blinkerH r c (i+1) (j+1) = 1 := ind_one e8 (by omega)
      have hHv : blinkerV r c i j = 1 := ind_one hH (by omega)
      have hgv : getCell (gridOfFn n (blinkerH r c)) i j = 0 := by rw [hg, g0]
      have hnbv : neighbors (gridOfFn n (blinkerH r c)) i j = 3 := by
        rw [hnb, g1, g2, g3, g4, g5, g6, g7, g8]
      rw [hHv]
      simp only [cellNext, hgv, hnbv]
      norm_num
    · have g0 : blinkerH r c i j = 0 := ind_zero e0 (by omega)
      have g1 : blinkerH r c (i-1) (j-1) = 0 := ind_zero e1 (by omega)
      have g2 : blinkerH r c (i-1) j = 0 := ind_zero e2 (by omega)
      have g3 : blinkerH r c (i-1) (j+1) = 0 := ind_zero e3 (by omega)
      have g4 : blinkerH r c i (j-1) = 0 := ind_zero e4 (by omega)
      have g5 : blinkerH r c i (j+1) = 0 := ind_zero e5 (by omega)
      have g6 : blinkerH r c (i+1) (j-1) = 1 := ind_one e6 (by omega)
      have g7 : blinkerH r c (i+1) j = 1 := ind_one e7 (by omega)
      have g8 : blinkerH r c (i+1) (j+1) = 0 := ind_zero e8 (by omega)
      have hHv : blinkerV r c i j = 0 := ind_zero hH (by omega)
      have hgv : getCell (gridOfFn n (blinkerH r c)) i j = 0 := by rw [hg, g0]
      have hnbv : neighbors (gridOfFn n (blinkerH r c)) i j = 2 := by
        rw [hnb, g1, g2, g3, g4, g5, g6, g7, g8]
      rw [hHv]
      simp only [cellNext, hgv, hnbv]
      norm_num
    · have g0 : blinkerH r c i j = 0 := ind_zero e0 (by omega)
      have g1 : blinkerH r c (i-1) (j-1) = 0 := ind_zero e1 (by omega)
      have g2 : blinkerH r c (i-1) j = 0 := ind_zero e2 (by omega)
      have g3 : blinkerH r c (i-1) (j+1) = 0 := ind_zero e3 (by omega)
      have g4 : blinkerH r c i (j-1) = 0 := ind_zero e4 (by omega)
      have g5 : blinkerH r c i (j+1) = 0 := ind_zero e5 (by omega)
      have g6 : blinkerH r c (i+1) (j-1) = 1 := ind_one e6 (by omega)
      have g7 : blinkerH r c (i+1) j = 0 := ind_zero e7 (by omega)
      have g8 : blinkerH r c (i+1) (j+1) = 0 := ind_zero e8 (by omega)
      have hHv : blinkerV r c i j = 0 := ind_zero hH (by omega)
      have hgv : getCell (gridOfFn n (blinkerH r c)) i j = 0 := by rw [hg, g0]
      have hnbv : neighbors (gridOfFn n (blinkerH r c)) i j = 1 := by
        rw [hnb, g1, g2, g3, g4, g5, g6, g7, g8]
      rw [hHv]
      simp only [cellNext, hgv, hnbv]
      norm_num
    · have g0 : blinkerH r c i j = 0 := ind_zero e0 (by omega)
      have g1 : blinkerH r c (i-1) (j-1) = 0 := ind_zero e1 (by omega)
      have g2 : blinkerH r c (i-1) j = 0 := ind_zero e2 (by omega)
      have g3 : blinkerH r c (i-1) (j+1) = 0 := ind_zero e3 (by omega)
      have g4 : blinkerH r c i (j-1) = 0 := ind_zero e4 (by omega)
      have g5 : blinkerH r c i (j+1) = 0 := ind_zero e5 (by omega)
      have g6 : blinkerH r c (i+1) (j-1) = 0 := ind_zero e6 (by omega)
      have g7 : blinkerH r c (i+1) j = 0 := ind_zero e7 (by omega)
      have g8 : blinkerH r c (i+1) (j+1) = 0 := ind_zero e8 (by omega)
      have hHv : blinkerV r c i j = 0 := ind_zero hH (by omega)
      have hgv : getCell (gridOfFn n (blinkerH r c)) i j = 0 := by rw [hg, g0]
      have hnbv : neighbors (gridOfFn n (blinkerH r c)) i j = 0 := by
        rw [hnb, g1, g2, g3, g4, g5, g6, g7, g8]
      rw [hHv]
      simp only [cellNext, hgv, hnbv]
      norm_num
  · rcases (by omega : j + 2 = c ∨ j + 1 = c ∨ j = c ∨ j = c + 1 ∨ j = c + 2 ∨ (j + 2 < c ∨ c + 2 < j)) with hJ | hJ | hJ | hJ | hJ | hJ
    · have g0 : blinkerH r c i j = 0 := ind_zero e0 (by omega)
      have g1 : blinkerH r c (i-1) (j-1) = 0 := ind_zero e1 (by omega)
      have g2 : blinkerH r c (i-1) j = 0 := ind_zero e2 (by omega)
      have g3 : blinkerH r c (i-1) (j+1) = 0 := ind_zero e3 (by omega)
      have g4 : blinkerH r c i (j-1) = 0 := ind_zero e4 (by omega)
      have g5 : blinkerH r c i (j+1) = 1 := ind_one e5 (by omega)
      have g6 : blinkerH r c (i+1) (j-1) = 0 := ind_zero e6 (by omega)
      have g7 : blinkerH r c (i+1) j = 0 := ind_zero e7 (by omega)
      have g8 : blinkerH r c (i+1) (j+1) = 0 := ind_zero e8 (by omega)
      have hHv : blinkerV r c i j = 0 := ind_zero hH (by omega)
      have hgv : getCell (gridOfFn n (blinkerH r c)) i j = 0 := by rw [hg, g0]
      have hnbv : neighbors (gridOfFn n (blinkerH r c)) i j = 1 := by
        rw [hnb, g1, g2, g3, g4, g5, g6, g7, g8]
      rw [hHv]
      simp only [cellNext, hgv, hnbv]
      norm_num
    · have g0 : blinkerH r c i j = 1 := ind_one e0 (by omega)
      have g1 : blinkerH r c (i-1) (j-1) = 0 := ind_zero e1 (by omega)
      have g2 : blinkerH r c (i-1) j = 0 := ind_zero e2 (by omega)
      have g3 : blinkerH r c (i-1) (j+1) = 0 := ind_zero e3 (by omega)
      have g4 : blinkerH r c i (j-1) = 0 := ind_zero e4 (by omega)
      have g5 : blinkerH r c i (j+1) = 1 := ind_one e5 (by omega)
      have g6 : blinkerH r c (i+1) (j-1) = 0 := ind_zero e6 (by omega)
      have g7 : blinkerH r c (i+1) j = 0 := ind_zero e7 (by omega)
      have g8 : blinkerH r c (i+1) (j+1) = 0 := ind_zero e8 (by omega)
      have hHv : blinkerV r c i j = 0 := ind_zero hH (by omega)
      have hgv : getCell (gridOfFn n (blinkerH r c)) i j = 1 := by rw [hg, g0]
      have hnbv : neighbors (gridOfFn n (blinkerH r c)) i j = 1 := by
        rw [hnb, g1, g2, g3, g4, g5, g6, g7, g8]
      rw [hHv]
      simp only [cellNext, hgv, hnbv]
      norm_num
    · have g0 : blinkerH r c i j = 1 := ind_one e0 (by omega)
      have g1 : blinkerH r c (i-1) (j-1) = 0 := ind_zero e1 (by omega)
      have g2 : blinkerH r c (i-1) j = 0 := ind_zero e2 (by omega)
      have g3 : blinkerH r c (i-1) (j+1) = 0 := ind_zero e3 (by omega)
      have g4 : blinkerH r c i (j-1) = 1 := ind_one e4 (by omega)
      have g5 : blinkerH r c i (j+1) = 1 := ind_one e5 (by omega)
      have g6 : blinkerH r c (i+1) (j-1) = 0 := ind_zero e6 (by omega)
      have g7 : blinkerH r c (i+1) j = 0 := ind_zero e7 (by omega)
      have g8 : blinkerH r c (i+1) (j+1) = 0 := ind_zero e8 (by omega)
      have hHv : blinkerV r c i j = 1 := ind_one hH (by omega)
      have hgv : getCell (gridOfFn n (blinkerH r c)) i j = 1 := by rw [hg, g0]
      have hnbv : neighbors (gridOfFn n (blinkerH r c)) i j = 2 := by
        rw [hnb, g1, g2, g3, g4, g5, g6, g7, g8]
      rw [hHv]
      simp only [cellNext, hgv, hnbv]
      norm_num
    · have g0 : blinkerH r c i j = 1 := ind_one e0 (by omega)
      have g1 : blinkerH r c (i-1) (j-1) = 0 := ind_zero e1 (by omega)
      have g2 : blinkerH r c (i-1) j = 0 := ind_zero e2 (by omega)
      have g3 : blinkerH r c (i-1) (j+1) = 0 := ind_zero e3 (by omega)
      have g4 : blinkerH r c i (j-1) = 1 := ind_one e4 (by omega)
      have g5 : blinkerH r c i (j+1) = 0 := ind_zero e5 (by omega)
      have g6 : blinkerH r c (i+1) (j-1) = 0 := ind_zero e6 (by omega)
      have g7 : blinkerH r c (i+1) j = 0 := ind_zero e7 (by omega)
      have g8 : blinkerH r c (i+1) (j+1) = 0 := ind_zero e8 (by omega)
      have hHv : blinkerV r c i j = 0 := ind_zero hH (by omega)
      have hgv : getCell (gridOfFn n (blinkerH r c)) i j = 1 := by rw [hg, g0]
      have hnbv : neighbors (gridOfFn n (blinkerH r c)) i j = 1 := by
        rw [hnb, g1, g2, g3, g4, g5, g6, g7, g8]
      rw [hHv]
      simp only [cellNext, hgv, hnbv]
      norm_num
    · have g0 : blinkerH r c i j = 0 := ind_zero e0 (by omega)
      have g1 : blinkerH r c (i-1) (j-1) = 0 := ind_zero e1 (by omega)
      have g2 : blinkerH r c (i-1) j = 0 := ind_zero e2 (by omega)
      have g3 : blinkerH r c (i-1) (j+1) = 0 := ind_zero e3 (by omega)
      have g4 : blinkerH r c i (j-1) = 1 := ind_one e4 (by omega)
      have g5 : blinkerH r c i (j+1) = 0 := ind_zero e5 (by omega)
      have g6 : blinkerH r c (i+1) (j-1) = 0 := ind_zero e6 (by omega)
      have g7 : blinkerH r c (i+1) j = 0 := ind_zero e7 (by omega)
      have g8 : blinkerH r c (i+1) (j+1) = 0 := ind_zero e8 (by omega)
      have hHv : blinkerV r c i j = 0 := ind_zero hH (by omega)
      have hgv : getCell (gridOfFn n (blinkerH r c)) i j = 0 := by rw [hg, g0]
      have hnbv : neighbors (gridOfFn n (blinkerH r c)) i j = 1 := by
        rw [hnb, g1, g2, g3, g4, g5, g6, g7, g8]
      rw [hHv]
      simp only [cellNext, hgv, hnbv]
      norm_num
    · have g0 : blinkerH r c i j = 0 := ind_zero e0 (by omega)
      have g1 : blinkerH r c (i-1) (j-1) = 0 := ind_zero e1 (by omega)
      have g2 : blinkerH r c (i-1) j = 0 := ind_zero e2 (by omega)
      have g3 : blinkerH r c (i-1) (j+1) = 0 := ind_zero e3 (by omega)
      have g4 : blinkerH r c i (j-1) = 0 := ind_zero e4 (by omega)
      have g5 : blinkerH r c i (j+1) = 0 := ind_zero e5 (by omega)
      have g6 : blinkerH r c (i+1) (j-1) = 0 := ind_zero e6 (by omega)
      have g7 : blinkerH r c (i+1) j = 0 := ind_zero e7 (by omega)
      have g8 : blinkerH r c (i+1) (j+1) = 0 := ind_zero e8 (by omega)
      have hHv : blinkerV r c i j = 0 := ind_zero hH (by omega)
      have hgv : getCell (gridOfFn n (blinkerH r c)) i j = 0 := by rw [hg, g0]
      have hnbv : neighbors (gridOfFn n (blinkerH r c)) i j = 0 := by
        rw [hnb, g1, g2, g3, g4, g5, g6, g7, g8]
      rw [hHv]
      simp only [cellNext, hgv, hnbv]
      norm_num
  · rcases (by omega : j + 2 = c ∨ j + 1 = c ∨ j = c ∨ j = c + 1 ∨ j = c + 2 ∨ (j + 2 < c ∨ c + 2 < j)) with hJ | hJ | hJ | hJ | hJ | hJ
    · have g0 : blinkerH r c i j = 0 := ind_zero e0 (by omega)
      have g1 : blinkerH r c (i-1) (j-1) = 0 := ind_zero e1 (by omega)
      have g2 : blinkerH r c (i-1) j = 0 := ind_zero e2 (by omega)
      have g3 : blinkerH r c (i-1) (j+1) = 1 := ind_one e3 (by omega)
      have g4 : blinkerH r c i (j-1) = 0 := ind_zero e4 (by omega)
      have g5 : blinkerH r c i (j+1) = 0 := ind_zero e5 (by omega)
      have g6 : blinkerH r c (i+1) (j-1) = 0 := ind_zero e6 (by omega)
      have g7 : blinkerH r c (i+1) j = 0 := ind_zero e7 (by omega)
      have g8 : blinkerH r c (i+1) (j+1) = 0 := ind_zero e8 (by omega)
      have hHv : blinkerV r c i j = 0 := ind_zero hH (by omega)
      have hgv : getCell (gridOfFn n (blinkerH r c)) i j = 0 := by rw [hg, g0]
      have hnbv : neighbors (gridOfFn n (blinkerH r c)) i j = 1 := by
        rw [hnb, g1, g2, g3, g4, g5, g6, g7, g8]
      rw [hHv]
      simp only [cellNext, hgv, hnbv]
      norm_num
    · have g0 : blinkerH r c i j = 0 := ind_zero e0 (by omega)
      have g1 : blinkerH r c (i-1) (j-1) = 0 := ind_zero e1 (by omega)
      have g2 : blinkerH r c (i-1) j = 1 := ind_one e2 (by omega)
      have g3 : blinkerH r c (i-1) (j+1) = 1 := ind_one e3 (by omega)
      have g4 : blinkerH r c i (j-1) = 0 := ind_zero e4 (by omega)
      have g5 : blinkerH r c i (j+1) = 0 := ind_zero e5 (by omega)
      have g6 : blinkerH r c (i+1) (j-1) = 0 := ind_zero e6 (by omega)
      have g7 : blinkerH r c (i+1) j = 0 := ind_zero e7 (by omega)
      have g8 : blinkerH r c (i+1) (j+1) = 0 := ind_zero e8 (by omega)
      have hHv : blinkerV r c i j = 0 := ind_zero hH (by omega)
      have hgv : getCell (gridOfFn n (blinkerH r c)) i j = 0 := by rw [hg, g0]
      have hnbv : neighbors (gridOfFn n (blinkerH r c)) i j = 2 := by
        rw [hnb, g1, g2, g3, g4, g5, g6, g7, g8]
      rw [hHv]
      simp only [cellNext, hgv, hnbv]
      norm_num
    · have g0 : blinkerH r c i j = 0 := ind_zero e0 (by omega)
      have g1 : blinkerH r c (i-1) (j-1) = 1 := ind_one e1 (by omega)
      have g2 : blinkerH r c (i-1) j = 1 := ind_one e2 (by omega)
      have g3 : blinkerH r c (i-1) (j+1) = 1 := ind_one e3 (by omega)
      have g4 : blinkerH r c i (j-1) = 0 := ind_zero e4 (by omega)
      have g5 : blinkerH r c i (j+1) = 0 := ind_zero e5 (by omega)
      have g6 : blinkerH r c (i+1) (j-1) = 0 := ind_zero e6 (by omega)
      have g7 : blinkerH r c (i+1) j = 0 := ind_zero e7 (by omega)
      have g8 : blinkerH r c (i+1) (j+1) = 0 := ind_zero e8 (by omega)
      have hHv : blinkerV r c i j = 1 := ind_one hH (by omega)
      have hgv : getCell (gridOfFn n (blinkerH r c)) i j = 0 := by rw [hg, g0]
      have hnbv : neighbors (gridOfFn n (blinkerH r c)) i j = 3 := by
        rw [hnb, g1, g2, g3, g4, g5, g6, g7, g8]
      rw [hHv]
      simp only [cellNext, hgv, hnbv]
      norm_num
    · have g0 : blinkerH r c i j = 0 := ind_zero e0 (by omega)
      have g1 : blinkerH r c (i-1) (j-1) = 1 := ind_one e1 (by omega)
      have g2 : blinkerH r c (i-1) j = 1 := ind_one e2 (by omega)
      have g3 : blinkerH r c (i-1) (j+1) = 0 := ind_zero e3 (by omega)
      have g4 : blinkerH r c i (j-1) = 0 := ind_zero e4 (by omega)
      have g5 : blinkerH r c i (j+1) = 0 := ind_zero e5 (by omega)
      have g6 : blinkerH r c (i+1) (j-1) = 0 := ind_zero e6 (by omega)
      have g7 : blinkerH r c (i+1) j = 0 := ind_zero e7 (by omega)
      have g8 : blinkerH r c (i+1) (j+1) = 0 := ind_zero e8 (by omega)
      have hHv : blinkerV r c i j = 0 := ind_zero hH (by omega)
      have hgv : getCell (gridOfFn n (blinkerH r c)) i j = 0 := by rw [hg, g0]
      have hnbv : neighbors (gridOfFn n (blinkerH r c)) i j = 2 := by
        rw [hnb, g1, g2, g3, g4, g5, g6, g7, g8]
      rw [hHv]
      simp only [cellNext, hgv, hnbv]
      norm_num
    · have g0 : blinkerH r c i j = 0 := ind_zero e0 (by omega)
      have g1 : blinkerH r c (i-1) (j-1) = 1 := ind_one e1 (by omega)
      have g2 : blinkerH r c (i-1) j = 0 := ind_zero e2 (by omega)
      have g3 : blinkerH r c (i-1) (j+1) = 0 := ind_zero e3 (by omega)
      have g4 : blinkerH r c i (j-1) = 0 := ind_zero e4 (by omega)
      have g5 : blinkerH r c i (j+1) = 0 := ind_zero e5 (by omega)
      have g6 : blinkerH r c (i+1) (j-1) = 0 := ind_zero e6 (by omega)
      have g7 : blinkerH r c (i+1) j = 0 := ind_zero e7 (by omega)
      have g8 : blinkerH r c (i+1) (j+1) = 0 := ind_zero e8 (by omega)
      have hHv : blinkerV r c i j = 0 := ind_zero hH (by omega)
      have hgv : getCell (gridOfFn n (blinkerH r c)) i j = 0 := by rw [hg, g0]
      have hnbv : neighbors (gridOfFn n (blinkerH r c)) i j = 1 := by
        rw [hnb, g1, g2, g3, g4, g5, g6, g7, g8]
      rw [hHv]
      simp only [cellNext, hgv, hnbv]
      norm_num
    · have g0 : blinkerH r c i j = 0 := ind_zero e0 (by omega)
      have g1 : blinkerH r c (i-1) (j-1) = 0 := ind_zero e1 (by omega)
      have g2 : blinkerH r c (i-1) j = 0 := ind_zero e2 (by omega)
      have g3 : blinkerH r c (i-1) (j+1) = 0 := ind_zero e3 (by omega)
      have g4 : blinkerH r c i (j-1) = 0 := ind_zero e4 (by omega)
      have g5 : blinkerH r c i (j+1) = 0 := ind_zero e5 (by omega)
      have g6 : blinkerH r c (i+1) (j-1) = 0 := ind_zero e6 (by omega)
      have g7 : blinkerH r c (i+1) j = 0 := ind_zero e7 (by omega)
      have g8 : blinkerH r c (i+1) (j+1) = 0 := ind_zero e8 (by omega)
      have hHv : blinkerV r c i j = 0 := ind_zero hH (by omega)
      have hgv : getCell (gridOfFn n (blinkerH r c)) i j = 0 := by rw [hg, g0]
      have hnbv : neighbors (gridOfFn n (blinkerH r c)) i j = 0 := by
        rw [hnb, g1, g2, g3, g4, g5, g6, g7, g8]
      rw [hHv]
      simp only [cellNext, hgv, hnbv]
      norm_num
  · rcases (by omega : j + 2 = c ∨ j + 1 = c ∨ j = c ∨ j = c + 1 ∨ j = c + 2 ∨ (j + 2 < c ∨ c + 2 < j)) with hJ | hJ | hJ | hJ | hJ | hJ
    · have g0 : blinkerH r c i j = 0 := ind_zero e0 (by omega)
      have g1 : blinkerH r c (i-1) (j-1) = 0 := ind_zero e1 (by omega)
      have g2 : blinkerH r c (i-1) j = 0 := ind_zero e2 (by omega)
      have g3 : blinkerH r c (i-1) (j+1) = 0 := ind_zero e3 (by omega)
      have g4 : blinkerH r c i (j-1) = 0 := ind_zero e4 (by omega)
      have g5 : blinkerH r c i (j+1) = 0 := ind_zero e5 (by omega)
      have g6 : blinkerH r c (i+1) (j-1) = 0 := ind_zero e6 (by omega)
      have g7 : blinkerH r c (i+1) j = 0 := ind_zero e7 (by omega)
      have g8 : blinkerH r c (i+1) (j+1) = 0 := ind_zero e8 (by omega)
      have hHv : blinkerV r c i j = 0 := ind_zero hH (by omega)
      have hgv : getCell (gridOfFn n (blinkerH r c)) i j = 0 := by rw [hg, g0]
      have hnbv : neighbors (gridOfFn n (blinkerH r c)) i j = 0 := by
        rw [hnb, g1, g2, g3, g4, g5, g6, g7, g8]
      rw [hHv]
      simp only [cellNext, hgv, hnbv]
      norm_num
    · have g0 : blinkerH r c i j = 0 := ind_zero e0 (by omega)
      have g1 : blinkerH r c (i-1) (j-1) = 0 := ind_zero e1 (by omega)
      have g2 : blinkerH r c (i-1) j = 0 := ind_zero e2 (by omega)
      have g3 : blinkerH r c (i-1) (j+1) = 0 := ind_zero e3 (by omega)
      have g4 : blinkerH r c i (j-1) = 0 := ind_zero e4 (by omega)
      have g5 : blinkerH r c i (j+1) = 0 := ind_zero e5 (by omega)
      have g6 : blinkerH r c (i+1) (j-1) = 0 := ind_zero e6 (by omega)
      have g7 : blinkerH r c (i+1) j = 0 := ind_zero e7 (by omega)
      have g8 : blinkerH r c (i+1) (j+1) = 0 := ind_zero e8 (by omega)
      have hHv : blinkerV r c i j = 0 := ind_zero hH (by omega)
      have hgv : getCell (gridOfFn n (blinkerH r c)) i j = 0 := by rw [hg, g0]
      have hnbv : neighbors (gridOfFn n (blinkerH r c)) i j = 0 := by
        rw [hnb, g1, g2, g3, g4, g5, g6, g7, g8]
      rw [hHv]
      simp only [cellNext, hgv, hnbv]
      norm_num
    · have g0 : blinkerH r c i j = 0 := ind_zero e0 (by omega)
      have g1 : blinkerH r c (i-1) (j-1) = 0 := ind_zero e1 (by omega)
      have g2 : blinkerH r c (i-1) j = 0 := ind_zero e2 (by omega)
      have g3 : blinkerH r c (i-1) (j+1) = 0 := ind_zero e3 (by omega)
      have g4 : blinkerH r c i (j-1) = 0 := ind_zero e4 (by omega)
      have g5 : blinkerH r c i (j+1) = 0 := ind_zero e5 (by omega)
      have g6 : blinkerH r c (i+1) (j-1) = 0 := ind_zero e6 (by omega)
      have g7 : blinkerH r c (i+1) j = 0 := ind_zero e7 (by omega)
      have g8 : blinkerH r c (i+1) (j+1) = 0 := ind_zero e8 (by omega)
      have hHv : blinkerV r c i j = 0 := ind_zero hH (by omega)
      have hgv : getCell (gridOfFn n (blinkerH r c)) i j = 0 := by rw [hg, g0]
      have hnbv : neighbors (gridOfFn n (blinkerH r c)) i j = 0 := by
        rw [hnb, g1, g2, g3, g4, g5, g6, g7, g8]
      rw [hHv]
      simp only [cellNext, hgv, hnbv]
      norm_num
    · have g0 : blinkerH r c i j = 0 := ind_zero e0 (by omega)
      have g1 : blinkerH r c (i-1) (j-1) = 0 := ind_zero e1 (by omega)
      have g2 : blinkerH r c (i-1) j = 0 := ind_zero e2 (by omega)
      have g3 : blinkerH r c (i-1) (j+1) = 0 := ind_zero e3 (by omega)
      have g4 : blinkerH r c i (j-1) = 0 := ind_zero e4 (by omega)
      have g5 : blinkerH r c i (j+1) = 0 := ind_zero e5 (by omega)
      have g6 : blinkerH r c (i+1) (j-1) = 0 := ind_zero e6 (by omega)
      have g7 : blinkerH r c (i+1) j = 0 := ind_zero e7 (by omega)
      have g8 : blinkerH r c (i+1) (j+1) = 0 := ind_zero e8 (by omega)
      have hHv : blinkerV r c i j = 0 := ind_zero hH (by omega)
      have hgv : getCell (gridOfFn n (blinkerH r c)) i j = 0 := by rw [hg, g0]
      have hnbv : neighbors (gridOfFn n (blinkerH r c)) i j = 0 := by
        rw [hnb, g1, g2, g3, g4, g5, g6, g7, g8]
      rw [hHv]
      simp only [cellNext, hgv, hnbv]
      norm_num
    · have g0 : blinkerH r c i j = 0 := ind_zero e0 (by omega)
      have g1 : blinkerH r c (i-1) (j-1) = 0 := ind_zero e1 (by omega)
      have g2 : blinkerH r c (i-1) j = 0 := ind_zero e2 (by omega)
      have g3 : blinkerH r c (i-1) (j+1) = 0 := ind_zero e3 (by omega)
      have g4 : blinkerH r c i (j-1) = 0 := ind_zero e4 (by omega)
      have g5 : blinkerH r c i (j+1) = 0 := ind_zero e5 (by omega)
      have g6 : blinkerH r c (i+1) (j-1) = 0 := ind_zero e6 (by omega)
      have g7 : blinkerH r c (i+1) j = 0 := ind_zero e7 (by omega)
      have g8 : blinkerH r c (i+1) (j+1) = 0 := ind_zero e8 (by omega)
      have hHv : blinkerV r c i j = 0 := ind_zero hH (by omega)
      have hgv : getCell (gridOfFn n (blinkerH r c)) i j = 0 := by rw [hg, g0]
      have hnbv : neighbors (gridOfFn n (blinkerH r c)) i j = 0 := by
        rw [hnb, g1, g2, g3, g4, g5, g6, g7, g8]
      rw [hHv]
      simp only [cellNext, hgv, hnbv]
      norm_num
    · have g0 : blinkerH r c i j = 0 := ind_zero e0 (by omega)
      have g1 : blinkerH r c (i-1) (j-1) = 0 := ind_zero e1 (by omega)
      have g2 : blinkerH r c (i-1) j = 0 := ind_zero e2 (by omega)
      have g3 : blinkerH r c (i-1) (j+1) = 0 := ind_zero e3 (by omega)
      have g4 : blinkerH r c i (j-1) = 0 := ind_zero e4 (by omega)
      have g5 : blinkerH r c i (j+1) = 0 := ind_zero e5 (by omega)
      have g6 : blinkerH r c (i+1) (j-1) = 0 := ind_zero e6 (by omega)
      have g7 : blinkerH r c (i+1) j = 0 := ind_zero e7 (by omega)
      have g8 : blinkerH r c (i+1) (j+1) = 0 := ind_zero e8 (by omega)
      have hHv : blinkerV r c i j = 0 := ind_zero hH (by omega)
      have hgv : getCell (gridOfFn n (blinkerH r c)) i j = 0 := by rw [hg, g0]
      have hnbv : neighbors (gridOfFn n (blinkerH r c)) i j = 0 := by
        rw [hnb, g1, g2, g3, g4, g5, g6, g7, g8]
      rw [hHv]
      simp only [cellNext, hgv, hnbv]
      norm_num

/-- C8: a vertical blinker centred away from the border becomes the
corresponding horizontal blinker after one generation step, and returns to
the original vertical configuration after a second step (the second round
writes into the buffer that held the original vertical grid). -/
theorem claim_C8_blinker_period_two (n r c : Nat)
    (h1 : 2 ≤ r) (h2 : r + 1 ≤ n) (h3 : 2 ≤ c) (h4 : c + 1 ≤ n) :
    computeRound n (gridOfFn n (blinkerV r c)) (make_grid n) = gridOfFn n (blinkerH r c) ∧
      computeRound n (gridOfFn n (blinkerH r c)) (gridOfFn n (blinkerV r c)) =
        gridOfFn n (blinkerV r c) := by
  constructor
  · refine gridOfFn_eq_of_fn_eq fun i j hi hj => ?_
    by_cases hin : 1 ≤ i ∧ i ≤ n ∧ 1 ≤ j ∧ j ≤ n
    · rw [if_pos hin]
      exact blinkerV_cellNext n r c i j h1 h2 h3 h4 hin.1 hin.2.1 hin.2.2.1 hin.2.2.2
    · rw [if_neg hin, getCell_make_grid]
      have hH := blinkerH_char r c i j
      omega
  · refine gridOfFn_eq_of_fn_eq fun i j hi hj => ?_
    by_cases hin : 1 ≤ i ∧ i ≤ n ∧ 1 ≤ j ∧ j ≤ n
    · rw [if_pos hin]
      exact blinkerH_cellNext n r c i j h1 h2 h3 h4 hin.1 hin.2.1 hin.2.2.1 hin.2.2.2
    · rw [if_neg hin, getCell_gridOfFn _ hi hj]

theorem claim_C8_witness :
    (2 ≤ 3 ∧ 3 + 1 ≤ 5 ∧ 2 ≤ 3 ∧ 3 + 1 ≤ 5) ∧
      (computeRound 5 (gridOfFn 5 (blinkerV 3 3)) (make_grid 5) = gridOfFn 5 (blinkerH 3 3) ∧
        computeRound 5 (gridOfFn 5 (blinkerH 3 3)) (gridOfFn 5 (blinkerV 3 3)) =
          gridOfFn 5 (blinkerV 3 3)) :=
  ⟨⟨by decide, by decide, by decide, by decide⟩,
    claim_C8_blinker_period_two 5 3 3 (by decide) (by decide) (by decide) (by decide)⟩

end GameLife

namespace GameLife

/-- C2: the barrier completion action's swap block makes the buffer most
recently written as next the grid read as current, keeps the old current
grid as the new next buffer, and sets the generation counter from g to
exactly g + 1. -/
theorem claim_C2_swap_semantics (s : EngineState) :
    (barrier_swap s).T = s.Tnext ∧ (barrier_swap s).Tnext = s.T ∧
      (barrier_swap s).gen_counter = s.gen_counter + 1 :=
  ⟨rfl, rfl, rfl⟩

/-- C6 is refuted by the source: barrier_action has no try/except, so
when the history snapshot write raises, the exception propagates out of
the completion action and the rest of the cycle (redraw signal, step-mode
shutoff) never runs, instead of being logged and survived. -/
theorem claim_C6_snapshot_error_propagates (s : EngineState) :
    barrier_action false true s = Except.error "snapshot" ∧
      (barrier_action false true s).isOk = false := by
  constructor <;> rfl

/-- C10: navigate with any direction other than undo and redo returns
False and leaves the whole state (grid, counter, history, redraw flag)
unchanged. -/
theorem claim_C10_unknown_direction_noop (s : EngineState) (direction : String)
    (h1 : direction ≠ "undo") (h2 : direction ≠ "redo") :
    load_state_from_history s direction = some (false, s) := by
  unfold load_state_from_history
  by_cases hh : s.history = [] <;> simp [hh, h1, h2]

theorem claim_C10_witness :
    (("jump" : String) ≠ "undo" ∧ ("jump" : String) ≠ "redo") ∧
      load_state_from_history ⟨[], [], 0, [], false, false, false⟩ "jump" =
        some (false, ⟨[], [], 0, [], false, false, false⟩) :=
  ⟨⟨by decide, by decide⟩,
    claim_C10_unknown_direction_noop ⟨[], [], 0, [], false, false, false⟩ "jump"
      (by decide) (by decide)⟩

end GameLife

namespace GameLife

theorem foldl_min_mem (xs : List Nat) (a : Nat) :
    xs.foldl min a = a ∨ xs.foldl min a ∈ xs := by
  induction xs generalizing a with
  | nil => exact Or.inl rfl
  | cons x xs ih =>
    rcases ih (min a x) with h | h
    · rcases Nat.le_total a x with hle | hle
      · simp only [List.foldl_cons] at *
        rw [h, Nat.min_eq_left hle]
        exact Or.inl rfl
      · simp only [List.foldl_cons] at *
        rw [h, Nat.min_eq_right hle]
        exact Or.inr (List.mem_cons_self x xs)
    · exact Or.inr (List.mem_cons_of_mem x h)

theorem foldl_min_le_init (xs : List Nat) (a : Nat) : xs.foldl min a ≤ a := by
  induction xs generalizing a with
  | nil => exact Nat.le_refl a
  | cons x xs ih =>
    simp only [List.foldl_cons]
    exact Nat.le_trans (ih (min a x)) (Nat.min_le_left a x)

theorem foldl_min_le_mem (xs : List Nat) (a x : Nat) (hx : x ∈ xs) :
    xs.foldl min a ≤ x := by
  induction xs generalizing a with
  | nil => cases hx
  | cons y ys ih =>
    simp only [List.foldl_cons]
    rcases List.mem_cons.1 hx with rfl | hmem
    · exact Nat.le_trans (foldl_min_le_init ys (min a x)) (Nat.min_le_right a x)
    · exact ih (min a y) hmem

theorem foldl_max_mem (xs : List Nat) (a : Nat) :
    xs.foldl max a = a ∨ xs.foldl max a ∈ xs := by
  induction xs generalizing a with
  | nil => exact Or.inl rfl
  | cons x xs ih =>
    rcases ih (max a x) with h | h
    · rcases Nat.le_total a x with hle | hle
      · simp only [List.foldl_cons] at *
        rw [h, Nat.max_eq_right hle]
        exact Or.inr (List.mem_cons_self x xs)
      · simp only [List.foldl_cons] at *
        rw [h, Nat.max_eq_left hle]
        exact Or.inl rfl
    · exact Or.inr (List.mem_cons_of_mem x h)

theorem le_foldl_max_init (xs : List Nat) (a : Nat) : a ≤ xs.foldl max a := by
  induction xs generalizing a with
  | nil => exact Nat.le_refl a
  | cons x xs ih =>
    simp only [List.foldl_cons]
    exact Nat.le_trans (Nat.le_max_left a x) (ih (max a x))

theorem mem_le_foldl_max (xs : List Nat) (a x : Nat) (hx : x ∈ xs) :
    x ≤ xs.foldl max a := by
  induction xs generalizing a with
  | nil => cases hx
  | cons y ys ih =>
    simp only [List.foldl_cons]
    rcases List.mem_cons.1 hx with rfl | hmem
    · exact Nat.le_trans (Nat.le_max_right a x) (le_foldl_max_init ys (max a x))
    · exact ih (max a y) hmem

theorem pyMin_mem {l : List Nat} (h : l ≠ []) : pyMin l ∈ l := by
  cases l with
  | nil => exact absurd rfl h
  | cons x xs =>
    rcases foldl_min_mem xs x with he | he
    · rw [pyMin, he]
      exact List.mem_cons_self x xs
    · exact List.mem_cons_of_mem x (by rw [pyMin]; exact he)

theorem pyMin_le {l : List Nat} {x : Nat} (hx : x ∈ l) : pyMin l ≤ x := by
  cases l with
  | nil => cases hx
  | cons y ys =>
    rw [pyMin]
    rcases List.mem_cons.1 hx with rfl | hmem
    · exact foldl_min_le_init ys x
    · exact foldl_min_le_mem ys y x hmem

theorem pyMax_mem {l : List Nat} (h : l ≠ []) : pyMax l ∈ l := by
  cases l with
  | nil => exact absurd rfl h
  | cons x xs =>
    rcases foldl_max_mem xs x with he | he
    · rw [pyMax, he]
      exact List.mem_cons_self x xs
    · exact List.mem_cons_of_mem x (by rw [pyMax]; exact he)

theorem le_pyMax {l : List Nat} {x : Nat} (hx : x ∈ l) : x ≤ pyMax l := by
  cases l with
  | nil => cases hx
  | cons y ys =>
    rw [pyMax]
    rcases List.mem_cons.1 hx with rfl | hmem
    · exact le_foldl_max_init ys x
    · exact mem_le_foldl_max ys y x hmem

theorem pyMin_range_from (s l : Nat) (hl : 0 < l) :
    pyMin (List.range' s l) = s := by
  cases l with
  | zero => cases hl
  | succ m =>
    rw [List.range'_succ, pyMin]
    have hge : ∀ x ∈ List.range' (s+1) m, s ≤ x := by
      intro x hx
      have := mem_range'_one.1 hx
      omega
    have hle := foldl_min_le_init (List.range' (s+1) m) s
    rcases foldl_min_mem (List.range' (s+1) m) s with he | he
    · exact he
    · exact Nat.le_antisymm hle (hge _ he)

end GameLife

namespace GameLife

theorem hInsert_of_not_mem {h : History} {k : Nat} {v : Grid}
    (hk : ∀ p ∈ h, p.1 ≠ k) : hInsert h k v = h ++ [(k, v)] := by
  induction h with
  | nil => rfl
  | cons p t ih =>
    obtain ⟨k2, v2⟩ := p
    rw [hInsert, if_neg (hk (k2, v2) (List.mem_cons_self _ _)),
      ih fun q hq => hk q (List.mem_cons_of_mem _ hq)]
    rfl

theorem length_hInsert_le (h : History) (k : Nat) (v : Grid) :
    (hInsert h k v).length ≤ h.length + 1 := by
  induction h with
  | nil => exact Nat.le_refl 1
  | cons p t ih =>
    obtain ⟨k2, v2⟩ := p
    rw [hInsert]
    by_cases he : k2 = k
    · rw [if_pos he]
      simp
    · rw [if_neg he]
      simpa using Nat.succ_le_succ ih

theorem keyList_pairMap (g : Grid) (r : List Nat) :
    keyList (r.map fun k => (k, g)) = r := by
  simp [keyList, List.map_map, Function.comp_def]

theorem hErase_cons_self (k : Nat) (v : Grid) (t : History) :
    hErase ((k, v) :: t) k = t := by
  simp [hErase]

theorem recGens_eq (g : Grid) (hg : g ≠ []) (m : Nat) :
    recGens g m =
      (List.range' (m - min m MAX_HISTORY_GENERATIONS)
        (min m MAX_HISTORY_GENERATIONS)).map fun k => (k, g) := by
  induction m with
  | zero => rfl
  | succ m ih =>
    rw [recGens, save_state_to_history]
    rw [if_neg hg]
    simp only [ih]
    have hkeys : ∀ p ∈ (List.range' (m - min m MAX_HISTORY_GENERATIONS)
        (min m MAX_HISTORY_GENERATIONS)).map fun k => (k, g), p.1 ≠ m := by
      intro p hp
      obtain ⟨k, hk, rfl⟩ := List.mem_map.1 hp
      have := mem_range'_one.1 hk
      have hmin : min m MAX_HISTORY_GENERATIONS ≤ m := Nat.min_le_left _ _
      omega
    rw [hInsert_of_not_mem hkeys]
    have hsum : m - min m MAX_HISTORY_GENERATIONS + min m MAX_HISTORY_GENERATIONS = m := by
      have := Nat.min_le_left m MAX_HISTORY_GENERATIONS
      omega
    have happ : ((List.range' (m - min m MAX_HISTORY_GENERATIONS)
          (min m MAX_HISTORY_GENERATIONS)).map fun k => (k, g)) ++ [(m, g)] =
        (List.range' (m - min m MAX_HISTORY_GENERATIONS)
          (min m MAX_HISTORY_GENERATIONS + 1)).map fun k => (k, g) := by
      rw [List.range'_1_concat, List.map_append, hsum]
      rfl
    rw [happ]
    by_cases hc : MAX_HISTORY_GENERATIONS < min m MAX_HISTORY_GENERATIONS + 1
    · have hm : MAX_HISTORY_GENERATIONS ≤ m := by
        rcases Nat.le_total m MAX_HISTORY_GENERATIONS with h | h
        · rw [Nat.min_eq_left h] at hc
          omega
        · exact h
      have hminm : min m MAX_HISTORY_GENERATIONS = MAX_HISTORY_GENERATIONS :=
        Nat.min_eq_right hm
      rw [if_pos (by simpa [hminm, List.length_map, List.length_range'] using hc)]
      simp only [keyList_pairMap]
      rw [pyMin_range_from _ _ (by omega)]
      have hsplit : List.range' (m - min m MAX_HISTORY_GENERATIONS)
          (min m MAX_HISTORY_GENERATIONS + 1) =
          (m - min m MAX_HISTORY_GENERATIONS) ::
            List.range' (m - min m MAX_HISTORY_GENERATIONS + 1)
              (min m MAX_HISTORY_GENERATIONS) := List.range'_succ _ _ 1
      rw [hsplit, List.map_cons, hErase_cons_self]
      have harith1 : m + 1 - min (m + 1) MAX_HISTORY_GENERATIONS =
          m - min m MAX_HISTORY_GENERATIONS + 1 := by
        rw [hminm, Nat.min_eq_right (by omega)]
        omega
      have harith2 : min (m + 1) MAX_HISTORY_GENERATIONS =
          min m MAX_HISTORY_GENERATIONS := by
        rw [hminm, Nat.min_eq_right (by omega)]
      rw [harith1, harith2]
    · have hm : m < MAX_HISTORY_GENERATIONS := by
        rcases Nat.le_total m MAX_HISTORY_GENERATIONS with h | h
        · rcases Nat.lt_or_ge m MAX_HISTORY_GENERATIONS with h2 | h2
          · exact h2
          · have : m = MAX_HISTORY_GENERATIONS := by omega
            subst this
            rw [Nat.min_self] at hc
            omega
        · rw [Nat.min_eq_right h] at hc
          omega
      rw [if_neg (by simpa [List.length_map, List.length_range'] using hc)]
      have h1 : min m MAX_HISTORY_GENERATIONS = m := Nat.min_eq_left (by omega)
      have h2 : min (m + 1) MAX_HISTORY_GENERATIONS = m + 1 := Nat.min_eq_left (by omega)
      rw [h1, h2]
      simp

end GameLife

namespace GameLife

/-- C3: a record operation never leaves more than MAX_HISTORY_GENERATIONS
= 100 entries (given the bound held before, as it always has), and
recording 100 + k snapshots at the consecutive generations 0, …, 100+k-1
leaves exactly 100 entries whose smallest key is k (the smallest key is
evicted each time the bound would be exceeded). -/
theorem claim_C3_history_bound_and_eviction :
    (∀ s : EngineState, s.history.length ≤ MAX_HISTORY_GENERATIONS →
        (save_state_to_history s).history.length ≤ MAX_HISTORY_GENERATIONS) ∧
      ∀ (g : Grid) (k : Nat), g ≠ [] → 0 < k →
        (recGens g (MAX_HISTORY_GENERATIONS + k)).length = MAX_HISTORY_GENERATIONS ∧
          pyMin (keyList (recGens g (MAX_HISTORY_GENERATIONS + k))) = k := by
  constructor
  · intro s hlen
    simp only [save_state_to_history]
    split_ifs with h1 h2
    · exact hlen
    · have hne : pyMin (keyList (hInsert s.history s.gen_counter s.T)) ∈
          keyList (hInsert s.history s.gen_counter s.T) := by
        apply pyMin_mem
        intro hempty
        rw [keyList, List.map_eq_nil] at hempty
        rw [hempty] at h2
        simp at h2
      obtain ⟨p, hp, hpk⟩ := List.mem_map.1 hne
      have hlen2 := length_hInsert_le s.history s.gen_counter s.T
      have herase : (hErase (hInsert s.history s.gen_counter s.T)
          (pyMin (keyList (hInsert s.history s.gen_counter s.T)))).length =
          (hInsert s.history s.gen_counter s.T).length - 1 := by
        rw [hErase]
        exact List.length_eraseP_of_mem hp (by simp [hpk])
      simp only [herase]
      omega
    · simpa using Nat.le_of_not_lt h2
  · intro g k hg hk
    rw [recGens_eq g hg]
    have hmin : min (MAX_HISTORY_GENERATIONS + k) MAX_HISTORY_GENERATIONS =
        MAX_HISTORY_GENERATIONS := Nat.min_eq_right (by omega)
    constructor
    · rw [List.length_map, List.length_range', hmin]
    · rw [keyList_pairMap, hmin, pyMin_range_from _ _ (by decide)]
      omega

theorem claim_C3_witness :
    ((⟨[], [], 0, [], false, false, false⟩ : EngineState).history.length ≤
        MAX_HISTORY_GENERATIONS ∧
      (save_state_to_history
        (⟨[], [], 0, [], false, false, false⟩ : EngineState)).history.length ≤
          MAX_HISTORY_GENERATIONS) ∧
      (([[0]] : Grid) ≠ [] ∧ 0 < 1 ∧
        (recGens [[0]] (MAX_HISTORY_GENERATIONS + 1)).length = MAX_HISTORY_GENERATIONS ∧
          pyMin (keyList (recGens [[0]] (MAX_HISTORY_GENERATIONS + 1))) = 1) :=
  ⟨⟨by decide, claim_C3_history_bound_and_eviction.1 _ (by decide)⟩,
    ⟨by decide, by decide,
      (claim_C3_history_bound_and_eviction.2 [[0]] 1 (by decide) (by decide)).1,
      (claim_C3_history_bound_and_eviction.2 [[0]] 1 (by decide) (by decide)).2⟩⟩

end GameLife

namespace GameLife

theorem getLast?_eq_of_sorted_max {l : List Nat} {t : Nat}
    (hs : l.Pairwise (fun a b : Nat => a ≤ b)) (ht : t ∈ l)
    (hmax : ∀ x ∈ l, x ≤ t) : l.getLast? = some t := by
  induction l with
  | nil => cases ht
  | cons a l ih =>
    cases l with
    | nil =>
      have : t = a := by simpa using ht
      simp [this]
    | cons b l2 =>
      rw [List.getLast?_cons_cons]
      have hpair := List.pairwise_cons.1 hs
      apply ih hpair.2
      · rcases List.mem_cons.1 ht with rfl | hm
        · have hab : t ≤ b := hpair.1 b (List.mem_cons_self _ _)
          have hba : b ≤ t := hmax b (List.mem_cons_of_mem _ (List.mem_cons_self _ _))
          have : b = t := Nat.le_antisymm hba hab
          rw [← this]
          exact List.mem_cons_self _ _
        · exact hm
      · intro x hx
        exact hmax x (List.mem_cons_of_mem _ hx)

theorem head?_eq_of_sorted_min {l : List Nat} {t : Nat}
    (hs : l.Pairwise (fun a b : Nat => a ≤ b)) (ht : t ∈ l)
    (hmin : ∀ x ∈ l, t ≤ x) : l.head? = some t := by
  cases l with
  | nil => cases ht
  | cons a l =>
    have hpair := List.pairwise_cons.1 hs
    rcases List.mem_cons.1 ht with rfl | hm
    · rfl
    · have h1 : a ≤ t := hpair.1 t hm
      have h2 : t ≤ a := hmin a (List.mem_cons_self _ _)
      rw [List.head?_cons, Nat.le_antisymm h1 h2]

theorem getD_lt {l : List (List Nat)} {i : Nat} (h : i < l.length) :
    l.getD i [] = l[i] := by
  rw [List.getD_eq_getElem?_getD, List.getElem?_eq_getElem h]
  rfl

theorem getDnat_lt {l : List Nat} {j : Nat} (h : j < l.length) :
    l.getD j 0 = l[j] := by
  rw [List.getD_eq_getElem?_getD, List.getElem?_eq_getElem h]
  rfl

theorem sortKeys_perm (h : History) : List.Perm (sortKeys h) (keyList h) := by
  rw [sortKeys]
  exact List.mergeSort_perm _ _

theorem mem_sortKeys {h : History} {a : Nat} : a ∈ sortKeys h ↔ a ∈ keyList h :=
  (sortKeys_perm h).mem_iff

theorem sortKeys_sorted (h : History) :
    (sortKeys h).Pairwise (fun a b : Nat => a ≤ b) := by
  rw [sortKeys]
  refine List.Pairwise.imp ?_
    (@List.sorted_mergeSort Nat (fun a b => a ≤ b) ?_ ?_ (keyList h))
  · intro a b hab
    simpa using hab
  · intro a b c hab hbc
    simp only [decide_eq_true_eq] at *
    omega
  · intro a b
    simp [Nat.le_total]

theorem length_copyInto (T state : Grid) : (copyInto T state).length = T.length := by
  simp [copyInto]

theorem copyInto_eq_of_sameShape {T state : Grid} (h : sameShape state T) :
    copyInto T state = state := by
  obtain ⟨hlen, hrows⟩ := h
  apply List.ext_getElem
  · rw [length_copyInto, hlen]
  · intro i h1 h2
    have hiT : i < T.length := by
      rw [length_copyInto] at h1
      exact h1
    have his : i < state.length := h2
    simp only [copyInto, List.getElem_mapIdx]
    apply List.ext_getElem
    · rw [List.length_mapIdx]
      have := hrows i his
      rw [getD_lt his, getD_lt hiT] at this
      exact this.symm
    · intro j hj1 hj2
      simp only [List.getElem_mapIdx]
      have hjs : j < (state.getD i []).length := by
        rw [getD_lt his]
        exact hj2
      rw [if_pos ⟨his, hjs⟩]
      rw [getCell, getD_lt his, getDnat_lt hj2]

theorem copyStrict_of_sameShape {T state : Grid} (h : sameShape state T) :
    copyStrict T state = some state := by
  rw [copyStrict, if_pos]
  · rw [copyInto_eq_of_sameShape h]
  · exact ⟨Nat.le_of_eq h.1, fun i hi => Nat.le_of_eq (h.2 i hi)⟩

end GameLife

namespace GameLife

theorem keyList_ne_nil {h : History} (hne : h ≠ []) : keyList h ≠ [] := by
  intro h0
  rw [keyList, List.map_eq_nil] at h0
  exact hne h0

theorem sortKeys_ne_nil {h : History} (hne : h ≠ []) : sortKeys h ≠ [] := by
  intro h0
  have hp := sortKeys_perm h
  rw [h0] at hp
  exact keyList_ne_nil hne hp.nil_eq.symm

/-- C4: navigate(undo) restores the stored grid with the largest key
strictly below the counter and sets the counter to that key;
navigate(redo) restores the stored grid with the smallest key strictly
above the counter; each returns False and leaves the state unchanged when
no such key exists; can_undo / can_redo are pure functions returning
exactly whether such a key exists. -/
theorem claim_C4_navigation (s : EngineState) :
    (∀ t : Nat, t ∈ keyList s.history → t < s.gen_counter →
      (∀ u ∈ keyList s.history, u < s.gen_counter → u ≤ t) →
      sameShape (hFind s.history t) s.T →
      load_state_from_history s "undo" =
        some (true, { s with T := hFind s.history t, gen_counter := t, redraw := true })) ∧
    ((∀ u ∈ keyList s.history, ¬ u < s.gen_counter) →
      load_state_from_history s "undo" = some (false, s)) ∧
    (∀ t : Nat, t ∈ keyList s.history → s.gen_counter < t →
      (∀ u ∈ keyList s.history, s.gen_counter < u → t ≤ u) →
      sameShape (hFind s.history t) s.T →
      load_state_from_history s "redo" =
        some (true, { s with T := hFind s.history t, gen_counter := t, redraw := true })) ∧
    ((∀ u ∈ keyList s.history, ¬ s.gen_counter < u) →
      load_state_from_history s "redo" = some (false, s)) ∧
    (can_undo s = true ↔ ∃ u ∈ keyList s.history, u < s.gen_counter) ∧
    (can_redo s = true ↔ ∃ u ∈ keyList s.history, s.gen_counter < u) := by
  refine ⟨?undoOk, ?undoFail, ?redoOk, ?redoFail, ?cu, ?cr⟩
  case undoOk =>
    intro t ht htc hmax hsh
    have hne : s.history ≠ [] := by
      intro h0
      rw [h0] at ht
      cases ht
    have hlast : ((sortKeys s.history).filter fun g => g < s.gen_counter).getLast? =
        some t := by
      apply getLast?_eq_of_sorted_max
      · exact (sortKeys_sorted s.history).filter _
      · rw [List.mem_filter]
        exact ⟨mem_sortKeys.2 ht, by simpa using htc⟩
      · intro x hx
        have hx2 := List.mem_filter.1 hx
        exact hmax x (mem_sortKeys.1 hx2.1) (by simpa using hx2.2)
    simp [load_state_from_history, hne, hlast, restore_state, copyStrict_of_sameShape hsh]
  case undoFail =>
    intro hnone
    by_cases hne : s.history = []
    · simp [load_state_from_history, hne]
    · have hfil : ((sortKeys s.history).filter fun g => g < s.gen_counter) = [] := by
        rw [List.filter_eq_nil_iff]
        intro a ha
        simpa using hnone a (mem_sortKeys.1 ha)
      simp only [load_state_from_history, if_neg hne, if_pos rfl, hfil]
      rfl
  case redoOk =>
    intro t ht htc hmin hsh
    have hne : s.history ≠ [] := by
      intro h0
      rw [h0] at ht
      cases ht
    have hhead : ((sortKeys s.history).filter fun g => s.gen_counter < g).head? =
        some t := by
      apply head?_eq_of_sorted_min
      · exact (sortKeys_sorted s.history).filter _
      · rw [List.mem_filter]
        exact ⟨mem_sortKeys.2 ht, by simpa using htc⟩
      · intro x hx
        have hx2 := List.mem_filter.1 hx
        exact hmin x (mem_sortKeys.1 hx2.1) (by simpa using hx2.2)
    simp [load_state_from_history, hne, hhead, restore_state, copyStrict_of_sameShape hsh]
  case redoFail =>
    intro hnone
    by_cases hne : s.history = []
    · simp [load_state_from_history, hne]
    · have hfil : ((sortKeys s.history).filter fun g => s.gen_counter < g) = [] := by
        rw [List.filter_eq_nil_iff]
        intro a ha
        simpa using hnone a (mem_sortKeys.1 ha)
      simp only [load_state_from_history, if_neg hne, if_neg (by decide : ¬("redo" : String) = "undo"),
        if_pos rfl, hfil]
      rfl
  case cu =>
    by_cases hne : s.history = []
    · simp [can_undo, hne, keyList]
    · simp only [can_undo, if_neg hne, decide_eq_true_eq]
      constructor
      · intro hlt
        exact ⟨pyMin (sortKeys s.history),
          mem_sortKeys.1 (pyMin_mem (sortKeys_ne_nil hne)), hlt⟩
      · rintro ⟨u, hu, huc⟩
        exact Nat.lt_of_le_of_lt (pyMin_le (mem_sortKeys.2 hu)) huc
  case cr =>
    by_cases hne : s.history = []
    · simp [can_redo, hne, keyList]
    · simp only [can_redo, if_neg hne, decide_eq_true_eq]
      constructor
      · intro hlt
        exact ⟨pyMax (sortKeys s.history),
          mem_sortKeys.1 (pyMax_mem (sortKeys_ne_nil hne)), hlt⟩
      · rintro ⟨u, hu, huc⟩
        exact Nat.lt_of_lt_of_le huc (le_pyMax (mem_sortKeys.2 hu))

theorem claim_C4_witness :
    ((3 : Nat) ∈ keyList ([(3, [[0]])] : History) ∧ (3 : Nat) < 5 ∧
        sameShape (hFind ([(3, [[0]])] : History) 3) ([[0]] : Grid)) ∧
      load_state_from_history
          (⟨[[0]], [], 5, [(3, [[0]])], false, false, false⟩ : EngineState) "undo" =
        some (true, (⟨[[0]], [], 3, [(3, [[0]])], true, false, false⟩ : EngineState)) ∧
      can_undo (⟨[[0]], [], 5, [(3, [[0]])], false, false, false⟩ : EngineState) = true := by
  refine ⟨⟨by decide, by decide, by decide⟩, ?_, ?_⟩
  · exact (claim_C4_navigation ⟨[[0]], [], 5, [(3, [[0]])], false, false, false⟩).1 3
      (by decide) (by decide) (by decide) (by decide)
  · exact (claim_C4_navigation
      ⟨[[0]], [], 5, [(3, [[0]])], false, false, false⟩).2.2.2.2.1.2 ⟨3, by decide, by decide⟩

end GameLife

namespace GameLife

theorem getCell_copyInto (T state : Grid) (i j : Nat)
    (hi : i < T.length) (hj : j < (T.getD i []).length) :
    getCell (copyInto T state) i j =
      if i < state.length ∧ j < (state.getD i []).length then getCell state i j
      else getCell T i j := by
  rw [getD_lt hi] at hj
  rw [getCell, getD_lt (by rw [length_copyInto]; exact hi)]
  simp only [copyInto, List.getElem_mapIdx]
  rw [getDnat_lt (by rw [List.length_mapIdx]; exact hj)]
  simp only [List.getElem_mapIdx]
  by_cases hc : i < state.length ∧ j < (state.getD i []).length
  · rw [if_pos hc, if_pos hc]
  · rw [if_neg hc, if_neg hc, getCell, getD_lt hi, getDnat_lt hj]

/-- C5: persisting the history then loading the persisted data on a fresh
instance reproduces the identical generation-to-grid mapping and the same
current generation counter, and restores the live grid only at indices
common to both the stored and the live grid (clipping on a size
mismatch, not failing). -/
theorem claim_C5_persistence_roundtrip (s fresh : EngineState)
    (hs : s.T ≠ []) (hf : fresh.T ≠ []) :
    (load_history_from_file (save_history_to_file s) fresh).history = s.history ∧
      (load_history_from_file (save_history_to_file s) fresh).gen_counter =
        s.gen_counter ∧
      ∀ i j : Nat, i < fresh.T.length → j < (fresh.T.getD i []).length →
        getCell (load_history_from_file (save_history_to_file s) fresh).T i j =
          if i < s.T.length ∧ j < (s.T.getD i []).length then getCell s.T i j
          else getCell fresh.T i j := by
  have hcond : s.T ≠ [] ∧ fresh.T ≠ [] := ⟨hs, hf⟩
  simp only [load_history_from_file, save_history_to_file, if_pos hcond]
  refine ⟨trivial, trivial, ?_⟩
  intro i j hi hj
  exact getCell_copyInto fresh.T s.T i j hi hj

theorem claim_C5_witness :
    (([[1]] : Grid) ≠ [] ∧ ([[0, 0], [0, 0]] : Grid) ≠ []) ∧
      (load_history_from_file
          (save_history_to_file ⟨[[1]], [], 7, [(2, [[9]])], false, false, false⟩)
          ⟨[[0, 0], [0, 0]], [], 0, [], false, false, false⟩).history = [(2, [[9]])] ∧
      (load_history_from_file
          (save_history_to_file ⟨[[1]], [], 7, [(2, [[9]])], false, false, false⟩)
          ⟨[[0, 0], [0, 0]], [], 0, [], false, false, false⟩).gen_counter = 7 ∧
      getCell (load_history_from_file
          (save_history_to_file ⟨[[1]], [], 7, [(2, [[9]])], false, false, false⟩)
          ⟨[[0, 0], [0, 0]], [], 0, [], false, false, false⟩).T 0 0 =
        if 0 < ([[1]] : Grid).length ∧ 0 < (([[1]] : Grid).getD 0 []).length
        then getCell [[1]] 0 0 else getCell [[0, 0], [0, 0]] 0 0 := by
  refine ⟨⟨by decide, by decide⟩, ?_, ?_, ?_⟩
  · exact (claim_C5_persistence_roundtrip
      ⟨[[1]], [], 7, [(2, [[9]])], false, false, false⟩
      ⟨[[0, 0], [0, 0]], [], 0, [], false, false, false⟩ (by decide) (by decide)).1
  · exact (claim_C5_persistence_roundtrip
      ⟨[[1]], [], 7, [(2, [[9]])], false, false, false⟩
      ⟨[[0, 0], [0, 0]], [], 0, [], false, false, false⟩ (by decide) (by decide)).2.1
  · exact (claim_C5_persistence_roundtrip
      ⟨[[1]], [], 7, [(2, [[9]])], false, false, false⟩
      ⟨[[0, 0], [0, 0]], [], 0, [], false, false, false⟩ (by decide) (by decide)).2.2 0 0
      (by decide) (by decide)

end GameLife

namespace GameLife

theorem getDnat_ge {l : List Nat} {j : Nat} (h : l.length ≤ j) : l.getD j 0 = 0 := by
  rw [List.getD_eq_getElem?_getD, List.getElem?_eq_none h]
  rfl

theorem getD_ge {l : List (List Nat)} {i : Nat} (h : l.length ≤ i) : l.getD i [] = [] := by
  rw [List.getD_eq_getElem?_getD, List.getElem?_eq_none h]
  rfl

theorem getCell_mapIdx_nested_eq (f : Nat → Nat → Nat → Nat) (g : Grid) (i j : Nat)
    (hf : f i j (getCell g i j) = getCell g i j) :
    getCell (List.mapIdx (fun i2 row => List.mapIdx (fun j2 v => f i2 j2 v) row) g) i j =
      getCell g i j := by
  by_cases hi : i < g.length
  · rw [getCell, getD_lt (by simpa using hi)]
    simp only [List.getElem_mapIdx]
    by_cases hj : j < g[i].length
    · rw [getDnat_lt (by simpa using hj)]
      simp only [List.getElem_mapIdx]
      have hgc : getCell g i j = g[i][j] := by
        rw [getCell, getD_lt hi, getDnat_lt hj]
      rw [hgc] at hf
      rw [hgc]
      exact hf
    · rw [getDnat_ge (by simpa using Nat.le_of_not_lt hj)]
      rw [getCell, getD_lt hi, getDnat_ge (Nat.le_of_not_lt hj)]
  · rw [getCell, getD_ge (by simpa using Nat.le_of_not_lt hi)]
    rw [getCell, getD_ge (Nat.le_of_not_lt hi)]

theorem ZeroBorder_copyInto {n : Nat} {T state : Grid}
    (hT : ZeroBorder n T) (hs : ZeroBorder n state) :
    ZeroBorder n (copyInto T state) := by
  intro i hi j hj hb
  have hf : (fun i2 j2 v =>
      if i2 < state.length ∧ j2 < (state.getD i2 []).length then getCell state i2 j2
      else v) i j (getCell T i j) = getCell T i j := by
    by_cases hc : i < state.length ∧ j < (state.getD i []).length
    · simp only [if_pos hc]
      rw [hs i hi j hj hb, hT i hi j hj hb]
    · simp only [if_neg hc]
  exact (getCell_mapIdx_nested_eq _ T i j hf).trans (hT i hi j hj hb)

theorem ZeroBorder_hFind {n : Nat} {h : History}
    (hH : ∀ p ∈ h, ZeroBorder n p.2) (k : Nat) : ZeroBorder n (hFind h k) := by
  rw [hFind]
  cases hf : h.find? fun p => p.1 == k with
  | none =>
    intro i _ j _ _
    rfl
  | some p =>
    simpa using hH p (List.mem_of_find?_eq_some hf)

theorem ZeroBorder_restore {n : Nat} {s : EngineState} {t : Nat} {b : Bool}
    {s2 : EngineState} (hT : ZeroBorder n s.T)
    (hH : ∀ p ∈ s.history, ZeroBorder n p.2)
    (h : restore_state s t = some (b, s2)) : ZeroBorder n s2.T := by
  rw [restore_state] at h
  cases hc : copyStrict s.T (hFind s.history t) with
  | none =>
    rw [hc] at h
    cases h
  | some T2 =>
    rw [hc] at h
    injection h with hpair
    injection hpair with hb hs2
    rw [copyStrict] at hc
    split_ifs at hc
    injection hc with hT2
    rw [← hs2]
    show ZeroBorder n T2
    rw [← hT2]
    exact ZeroBorder_copyInto hT (ZeroBorder_hFind hH t)

/-- C7 as stated is refuted at a concrete input: a history file persisted
from a size-3 session holds a legitimate dead-bordered 5x5 grid with a
live interior cell at (2,2); loading that file into a freshly created
size-1 session (3x3 grid, border indices 0 and 2) clips the copy and
writes that stored interior value into the live grid, after which the
border cell (2,2) reads 1, not 0. -/
theorem claim_C7_counterexample :
    ZeroBorder 3
      [[0,0,0,0,0],[0,0,0,0,0],[0,0,1,0,0],[0,0,0,0,0],[0,0,0,0,0]] ∧
    ZeroBorder 1 (make_grid 1) ∧
    getCell (load_history_from_file
      (save_history_to_file
        ⟨[[0,0,0,0,0],[0,0,0,0,0],[0,0,1,0,0],[0,0,0,0,0],[0,0,0,0,0]],
          [], 0, [], false, false, false⟩)
      ⟨make_grid 1, [], 0, [], false, false, false⟩).T 2 2 = 1 := by
  refine ⟨by decide, by decide, by decide⟩

/-- C7 amended: border cells always read dead (0) across grid creation,
randomize, clear, a generation step, a history restore and a history file
load, provided the grid restored from the history or from the file has
its dead border at the live grid's size; a size-mismatched file load may
write stored interior values into live border cells (see the
counterexample). -/
theorem claim_C7_amended_border_invariant :
    (∀ size i j : Nat, getCell (make_grid size) i j = 0) ∧
    (∀ (r : Nat → Nat → Bool) (n : Nat) (g : Grid), ZeroBorder n g →
      ZeroBorder n (randomize_grid r n g)) ∧
    (∀ (n : Nat) (g : Grid), ZeroBorder n g → ZeroBorder n (clear_grid n g)) ∧
    (∀ (n : Nat) (T B : Grid), ZeroBorder n B →
      ZeroBorder n (computeRound n T B)) ∧
    (∀ (n : Nat) (s : EngineState) (direction : String) (b : Bool)
      (s2 : EngineState), ZeroBorder n s.T →
      (∀ p ∈ s.history, ZeroBorder n p.2) →
      load_state_from_history s direction = some (b, s2) →
      ZeroBorder n s2.T) ∧
    (∀ (n : Nat) (d : SaveData) (s : EngineState), ZeroBorder n s.T →
      ZeroBorder n d.grid_state →
      ZeroBorder n (load_history_from_file d s).T) := by
  refine ⟨?crea, ?rand, ?clear, ?step, ?restore, ?loadf⟩
  case crea => exact fun size i j => getCell_make_grid size i j
  case rand =>
    intro r n g hg i hi j hj hb
    have hni : ¬(1 ≤ i ∧ i ≤ n ∧ 1 ≤ j ∧ j ≤ n) := by omega
    have hf : (fun i2 j2 v =>
        if 1 ≤ i2 ∧ i2 ≤ n ∧ 1 ≤ j2 ∧ j2 ≤ n then (if r i2 j2 then 1 else 0)
        else v) i j (getCell g i j) = getCell g i j := by
      simp only [if_neg hni]
    exact (getCell_mapIdx_nested_eq _ g i j hf).trans (hg i hi j hj hb)
  case clear =>
    intro n g hg i hi j hj hb
    have hni : ¬(1 ≤ i ∧ i ≤ n ∧ 1 ≤ j ∧ j ≤ n) := by omega
    have hf : (fun i2 j2 v =>
        if 1 ≤ i2 ∧ i2 ≤ n ∧ 1 ≤ j2 ∧ j2 ≤ n then 0 else v) i j
          (getCell g i j) = getCell g i j := by
      simp only [if_neg hni]
    exact (getCell_mapIdx_nested_eq _ g i j hf).trans (hg i hi j hj hb)
  case step =>
    intro n T B hB i hi j hj hb
    have hni : ¬(1 ≤ i ∧ i ≤ n ∧ 1 ≤ j ∧ j ≤ n) := by omega
    rw [computeRound, getCell_gridOfFn _ hi hj, if_neg hni]
    exact hB i hi j hj hb
  case restore =>
    intro n s direction b s2 hT hH hload
    simp only [load_state_from_history] at hload
    split_ifs at hload with h1 h2 h3
    · injection hload with hpair
      injection hpair with hb hs2
      rw [← hs2]
      exact hT
    · cases hget : ((sortKeys s.history).filter fun g => g < s.gen_counter).getLast? with
      | none =>
        rw [hget] at hload
        injection hload with hpair
        injection hpair with hb hs2
        rw [← hs2]
        exact hT
      | some t =>
        rw [hget] at hload
        exact ZeroBorder_restore hT hH hload
    · cases hget : ((sortKeys s.history).filter fun g => s.gen_counter < g).head? with
      | none =>
        rw [hget] at hload
        injection hload with hpair
        injection hpair with hb hs2
        rw [← hs2]
        exact hT
      | some t =>
        rw [hget] at hload
        exact ZeroBorder_restore hT hH hload
    · injection hload with hpair
      injection hpair with hb hs2
      rw [← hs2]
      exact hT
  case loadf =>
    intro n d s hT hD
    rw [load_history_from_file]
    by_cases hc : d.grid_state ≠ [] ∧ s.T ≠ []
    · rw [if_pos hc]
      exact ZeroBorder_copyInto hT hD
    · rw [if_neg hc]
      exact hT

theorem claim_C7_witness :
    ZeroBorder 1 (make_grid 1) ∧
      ZeroBorder 1 (computeRound 1 (make_grid 1) (make_grid 1)) ∧
      ZeroBorder 1 (load_history_from_file ⟨[], 0, make_grid 1⟩
        ⟨make_grid 1, [], 0, [], false, false, false⟩).T :=
  ⟨by decide,
    claim_C7_amended_border_invariant.2.2.2.1 1 (make_grid 1) (make_grid 1) (by decide),
    claim_C7_amended_border_invariant.2.2.2.2.2 1 ⟨[], 0, make_grid 1⟩
      ⟨make_grid 1, [], 0, [], false, false, false⟩ (by decide) (by decide)⟩

end GameLife
